import Mathlib

/-!
Verification of the CrossFlow cross-chain transfer agent.

This file gives a shallow embedding of the agent's core modules —
chain detection (`chainDetector.js`), the guardrail validator
(`validator.js`), the bridge route aggregator and ranker
(`bridgeRouter.js`), the orchestrator / transfer state machine
(`orchestrator.js`) and the alert engine (`layerzero.js`) — and proves
properties of the embedded definitions.

Modelling conventions:
* JS numbers are embedded as exact rationals (`ℚ`); float rounding is
  not modelled.
* JS strings used as text are embedded as `String` or, where character
  level operations matter (addresses, user messages), as `List Char`.
* Network calls (provider quote fetches, price feeds, on-chain
  submission, the LLM intent parser) are external effects; their
  settled outcomes are passed in explicitly as environment values, so
  every embedded function is total and pure.
-/

namespace CrossFlow

/-! ## Character classes for the address regexes in `chainDetector.js` -/

/-- Base58 alphabet `[1-9A-HJ-NP-Za-km-z]` (no 0, I, O, l). -/
def isBase58Char (c : Char) : Bool :=
  (('1' ≤ c && c ≤ '9')
    || ('A' ≤ c && c ≤ 'Z' && c ≠ 'I' && c ≠ 'O')
    || ('a' ≤ c && c ≤ 'z' && c ≠ 'l'))

/-- Hex digit `[a-fA-F0-9]`. -/
def isHexChar (c : Char) : Bool :=
  (('0' ≤ c && c ≤ '9') || ('a' ≤ c && c ≤ 'f') || ('A' ≤ c && c ≤ 'F'))

/-- Alphanumeric `[a-zA-Z0-9]`. -/
def isAlnumChar (c : Char) : Bool :=
  (('0' ≤ c && c ≤ '9') || ('a' ≤ c && c ≤ 'z') || ('A' ≤ c && c ≤ 'Z'))

/-- Lowercase hex `[a-f0-9]`. -/
def isLowerHexChar (c : Char) : Bool :=
  (('0' ≤ c && c ≤ '9') || ('a' ≤ c && c ≤ 'f'))

/-- NEAR account name characters `[a-z0-9_-]`. -/
def isNearNameChar (c : Char) : Bool :=
  (('0' ≤ c && c ≤ '9') || ('a' ≤ c && c ≤ 'z') || c == '_' || c == '-')

/-- Lowercase alphanumeric `[a-z0-9]`. -/
def isLowerAlnumChar (c : Char) : Bool :=
  (('0' ≤ c && c ≤ '9') || ('a' ≤ c && c ≤ 'z'))

/-! ## String helpers (JS `trim`, `toLowerCase`, `includes`, `join`) -/

/-- JS `String.prototype.trim` (whitespace stripped from both ends). -/
def trimChars (l : List Char) : List Char :=
  ((l.dropWhile Char.isWhitespace).reverse.dropWhile Char.isWhitespace).reverse

/-- JS `String.prototype.toLowerCase` (ASCII-level model). -/
def toLowerChars (l : List Char) : List Char :=
  l.map Char.toLower

/-- JS `haystack.includes(needle)`: `needle` occurs contiguously in `haystack`. -/
def strIncludes (haystack needle : List Char) : Bool :=
  haystack.tails.any (fun t => needle.isPrefixOf t)

/-- JS `array.join(" ")` on a list of strings. -/
def joinSpace (l : List (List Char)) : List Char :=
  (l.intersperse [' ']).flatten

/-! ## `chainDetector.js` -/

/-- Result of `detectChainFromAddress` / `detectEVMChainFromContext`.
The JS objects also carry `chainId`, `nativeToken`, `rpcKey` and
`evmCandidates`; those are static configuration echoes never read by the
verified control flow and are omitted here. A missing `unsupported` key
(JS `undefined`, falsy) is modelled as `false`. -/
structure ChainDetectResult where
  chain : String
  confidence : String
  note : String
  unsupported : Bool
deriving DecidableEq

/-- `CHAIN_PATTERNS.SOLANA`: `/^[1-9A-HJ-NP-Za-km-z]{32,44}$/`. -/
def isSolanaAddr (l : List Char) : Bool :=
  32 ≤ l.length && l.length ≤ 44 && l.all isBase58Char

/-- `CHAIN_PATTERNS.EVM`: `/^0x[a-fA-F0-9]{40}$/`. -/
def isEVMAddr (l : List Char) : Bool :=
  match l with
  | '0' :: 'x' :: rest => rest.length == 40 && rest.all isHexChar
  | _ => false

/-- `CHAIN_PATTERNS.BITCOIN`:
`/^(1[a-zA-Z0-9]{25,33}|3[a-zA-Z0-9]{25,33}|bc1[a-zA-Z0-9]{25,90})$/`. -/
def isBitcoinAddr (l : List Char) : Bool :=
  match l with
  | 'b' :: 'c' :: '1' :: rest =>
      25 ≤ rest.length && rest.length ≤ 90 && rest.all isAlnumChar
  | '1' :: rest => 25 ≤ rest.length && rest.length ≤ 33 && rest.all isAlnumChar
  | '3' :: rest => 25 ≤ rest.length && rest.length ≤ 33 && rest.all isAlnumChar
  | _ => false

/-- `CHAIN_PATTERNS.TRON`: `/^T[a-zA-Z0-9]{33}$/`. -/
def isTronAddr (l : List Char) : Bool :=
  match l with
  | 'T' :: rest => rest.length == 33 && rest.all isAlnumChar
  | _ => false

/-- `CHAIN_PATTERNS.NEAR`:
`/^[a-z0-9_-]{2,64}\.(near|testnet)$|^[a-f0-9]{64}$/`.
The name part cannot contain a dot, so a match of the first alternative
is exactly: the address ends in `.near` or `.testnet` and the part
before the final suffix is 2–64 name characters. -/
def isNearAddr (l : List Char) : Bool :=
  (let suffixNear : List Char := ['.', 'n', 'e', 'a', 'r']
   suffixNear.isSuffixOf l &&
     (let name := l.take (l.length - 5)
      2 ≤ name.length && name.length ≤ 64 && name.all isNearNameChar))
  || (let suffixTn : List Char := ['.', 't', 'e', 's', 't', 'n', 'e', 't']
      suffixTn.isSuffixOf l &&
        (let name := l.take (l.length - 8)
         2 ≤ name.length && name.length ≤ 64 && name.all isNearNameChar))
  || (l.length == 64 && l.all isLowerHexChar)

/-- `CHAIN_PATTERNS.COSMOS`: `/^cosmos[a-z0-9]{39}$/`. -/
def isCosmosAddr (l : List Char) : Bool :=
  (['c', 'o', 's', 'm', 'o', 's'] : List Char).isPrefixOf l
    && (l.drop 6).length == 39 && (l.drop 6).all isLowerAlnumChar

/-- `CHAIN_PATTERNS.OSMOSIS`: `/^osmo[a-z0-9]{39}$/`. -/
def isOsmosisAddr (l : List Char) : Bool :=
  (['o', 's', 'm', 'o'] : List Char).isPrefixOf l
    && (l.drop 4).length == 39 && (l.drop 4).all isLowerAlnumChar

/-- `detectEVMChainFromContext(hint)`: narrows an EVM address to a chain
from context clues (the hint is already lowercased by the caller). -/
def detectEVMChainFromContext (hint : List Char) : ChainDetectResult :=
  if strIncludes hint ['b', 'a', 's', 'e'] then
    ⟨"base", "high", "Base chain detected from context", false⟩
  else if strIncludes hint ['c', 'e', 'l', 'o'] then
    ⟨"celo", "high", "Celo chain detected from context", false⟩
  else if strIncludes hint ['p', 'o', 'l', 'y', 'g', 'o', 'n']
      || strIncludes hint ['m', 'a', 't', 'i', 'c'] then
    ⟨"polygon", "high", "Polygon detected from context", false⟩
  else if strIncludes hint ['a', 'r', 'b', 'i', 't', 'r', 'u', 'm'] then
    ⟨"arbitrum", "high", "Arbitrum detected from context", false⟩
  else if strIncludes hint ['o', 'p', 't', 'i', 'm', 'i', 's', 'm'] then
    ⟨"optimism", "high", "Optimism detected from context", false⟩
  else if strIncludes hint ['a', 'v', 'a', 'l', 'a', 'n', 'c', 'h', 'e']
      || strIncludes hint ['a', 'v', 'a', 'x'] then
    ⟨"avalanche", "high", "Avalanche detected from context", false⟩
  else if strIncludes hint ['b', 'n', 'b'] || strIncludes hint ['b', 's', 'c'] then
    ⟨"bnb", "high", "BNB Chain detected from context", false⟩
  else
    ⟨"ethereum", "medium",
      "EVM address detected. Defaulting to Ethereum - confirm if this is a different EVM chain.",
      false⟩

/-- `detectChainFromAddress(address, contextHint)`. -/
def detectChainFromAddress (address contextHint : List Char) : ChainDetectResult :=
  let addr := trimChars address
  if isSolanaAddr addr && !((['0', 'x'] : List Char).isPrefixOf addr) then
    ⟨"solana", "high", "Solana address detected (Base58 format)", false⟩
  else if isEVMAddr addr then
    detectEVMChainFromContext (toLowerChars contextHint)
  else if isBitcoinAddr addr then
    ⟨"bitcoin", "high",
      "Bitcoin address detected. Note: USDT/USDC bridging to Bitcoin is not supported.",
      true⟩
  else if isTronAddr addr then
    ⟨"tron", "high", "TRON address detected. USDT is natively supported on TRON.", false⟩
  else if isNearAddr addr then
    ⟨"near", "high", "NEAR Protocol address detected.", false⟩
  else if isCosmosAddr addr then
    ⟨"cosmos", "high", "", false⟩
  else if isOsmosisAddr addr then
    ⟨"osmosis", "high", "", false⟩
  else
    ⟨"unknown", "low",
      "Could not identify chain from address format. Please specify the destination chain.",
      false⟩

/-- Result of `validateAddressForChain`: `{ valid, reason? }`
(`reason` is absent on success; modelled as `""`). -/
structure AddrCheck where
  valid : Bool
  reason : String
deriving DecidableEq

/-- `validateAddressForChain(address, chain)`. -/
def validateAddressForChain (address : List Char) (chain : String) : AddrCheck :=
  if chain = "solana" then
    if isSolanaAddr (trimChars address) then ⟨true, ""⟩
    else ⟨false, "Invalid Solana address format"⟩
  else if chain = "ethereum" || chain = "base" || chain = "celo" || chain = "polygon"
      || chain = "arbitrum" || chain = "optimism" || chain = "bnb" || chain = "avalanche" then
    if isEVMAddr (trimChars address) then ⟨true, ""⟩
    else ⟨false, "Invalid EVM address for " ++ chain⟩
  else if chain = "tron" then
    if isTronAddr (trimChars address) then ⟨true, ""⟩
    else ⟨false, "Invalid TRON address format"⟩
  else
    ⟨false, "Chain is not currently supported"⟩

/-! ## `bridgeRouter.js`: quotes, ranking, aggregation -/

/-- A normalized bridge quote, as produced by the five provider adapters
in `bridgeRouter.js`. The opaque `rawQuote` provider payload and the
optional informational `note` string are omitted (they are never read by
the verified control flow). -/
structure Quote where
  bridge : String
  feeUSD : ℚ
  estimatedMinutes : ℚ
  successRate : ℚ
  liquidityUSD : ℚ
  executionMethod : String
  executionReady : Bool
deriving DecidableEq

/-- The balanced-policy score
`a.feeUSD * 0.4 + a.estimatedMinutes * 0.4 + (1 - a.successRate) * 100 * 0.2`. -/
def balancedScore (q : Quote) : ℚ :=
  q.feeUSD * (4 / 10) + q.estimatedMinutes * (4 / 10) + (1 - q.successRate) * 100 * (2 / 10)

/-- The ordering used by `rankQuotes`' comparator for a given priority:
`policyLe p a b` holds iff the JS comparator returns a value `≤ 0` on
`(a, b)`, i.e. the sort places `a` no later than `b`. -/
def policyLe (priority : String) (a b : Quote) : Prop :=
  if priority = "cheapest" then a.feeUSD ≤ b.feeUSD
  else if priority = "fastest" then a.estimatedMinutes ≤ b.estimatedMinutes
  else if priority = "safest" then b.successRate ≤ a.successRate
  else balancedScore a ≤ balancedScore b

instance (p : String) : DecidableRel (policyLe p) := fun a b => by
  unfold policyLe
  split_ifs <;> infer_instance

instance (p : String) : IsTotal Quote (policyLe p) := by
  constructor
  intro a b
  unfold policyLe
  split_ifs <;> exact le_total _ _

instance (p : String) : IsTrans Quote (policyLe p) := by
  constructor
  intro a b c hab hbc
  unfold policyLe at *
  split_ifs at * <;> first
    | exact le_trans hab hbc
    | exact le_trans hbc hab

/-- `rankQuotes(quotes, priority)`: `[...quotes].sort(comparator)`.
JS `Array.prototype.sort` is specified to be stable; a stable sort with
respect to a total preorder comparator is extensionally unique, so it is
embedded as insertion sort over `policyLe priority`. -/
def rankQuotes (quotes : List Quote) (priority : String) : List Quote :=
  List.insertionSort (policyLe priority) quotes

/-- The `{ best, all, warnings }` result of `getBestBridgeRoute`. -/
structure RankedRouteSet where
  best : Option Quote
  all : List Quote
  warnings : List String
deriving DecidableEq

/-- Parameters of a route request (`{ fromChain, toChain, token, amount, priority }`). -/
structure RouteParams where
  fromChain : String
  toChain : String
  token : String
  amount : ℚ
  priority : String
deriving DecidableEq

/-- `getBestBridgeRoute(params)`.

The five provider quote calls (`getAcrossQuote`, `getWormholeQuote`,
`getAxelarQuote`, `getCelerQuote`, `getLayerZeroQuote`) are network
effects gathered with `Promise.allSettled`; their settled outcomes are
passed in as `providerResults`, where `none` stands for a rejected call,
a thrown provider error, or a `null` quote (each provider function
catches its own errors and resolves with `null`), and `some q` for a
fulfilled non-null quote. -/
def getBestBridgeRoute (params : RouteParams) (providerResults : List (Option Quote)) :
    RankedRouteSet :=
  let allQuotes := providerResults.filterMap id
  let validQuotes := allQuotes.filter (fun q => q.executionReady == true)
  let useQuotes := if validQuotes.length > 0 then validQuotes else allQuotes
  if useQuotes.length == 0 then
    { best := none
      all := []
      warnings := ["No supported bridge route found for " ++ params.token ++ " from "
        ++ params.fromChain ++ " to " ++ params.toChain ++ "."] }
  else
    let notReady := allQuotes.filter (fun q => q.executionReady == false)
    let warnings₀ :=
      if notReady.length > 0 && validQuotes.length == 0 then
        ["Bridges found (" ++ String.intercalate ", " (notReady.map Quote.bridge)
          ++ ") but their SDKs are not yet installed. See DEPLOY.md."]
      else []
    let warnings₁ := useQuotes.flatMap (fun q =>
      (if q.liquidityUSD < params.amount * 2 then
        ["Warning " ++ q.bridge ++ ": Low liquidity. Transfer may fail."]
      else []) ++
      (if q.feeUSD > params.amount * (5 / 100) then
        ["Warning " ++ q.bridge ++ ": High fee - large share of transfer."]
      else []))
    let ranked := rankQuotes useQuotes params.priority
    { best := ranked.head?, all := ranked, warnings := warnings₀ ++ warnings₁ }

/-! ## `bridgeRouter.js`: the five provider adapters

The adapter bodies are embedded from the source; only their network
effects (the settled `fetch` outcomes and the `config.TOKENS` address
table) are free environment values. -/

/-- One row of the `CHAIN_IDS` mapping. -/
structure ChainIdsRow where
  evmId : Option Nat
  wormholeId : Option Nat
  axelarName : Option String
  layerzeroId : Option Nat
  acrossId : Option Nat
deriving DecidableEq

/-- The `CHAIN_IDS` table (no id in it is `0`, so JS truthiness of an
id coincides with the key being present and non-null). -/
def CHAIN_IDS (chain : String) : Option ChainIdsRow :=
  if chain == "ethereum" then some ⟨some 1, some 2, some "ethereum", some 101, some 1⟩
  else if chain == "base" then some ⟨some 8453, some 30, some "base", some 184, some 8453⟩
  else if chain == "celo" then some ⟨some 42220, some 14, some "celo", some 125, none⟩
  else if chain == "polygon" then some ⟨some 137, some 5, some "polygon", some 109, some 137⟩
  else if chain == "arbitrum" then
    some ⟨some 42161, some 23, some "arbitrum", some 110, some 42161⟩
  else if chain == "optimism" then some ⟨some 10, some 24, some "optimism", some 111, some 10⟩
  else if chain == "solana" then some ⟨none, some 1, none, none, none⟩
  else if chain == "bnb" then some ⟨some 56, some 4, some "binance", some 102, none⟩
  else none

/-- `CHAIN_IDS[chain]?.acrossId` (JS optional chaining). -/
def acrossIdOf (chain : String) : Option Nat := (CHAIN_IDS chain).bind ChainIdsRow.acrossId

/-- `CHAIN_IDS[chain]?.layerzeroId`. -/
def layerzeroIdOf (chain : String) : Option Nat :=
  (CHAIN_IDS chain).bind ChainIdsRow.layerzeroId

/-- `CHAIN_IDS[chain]?.wormholeId`. -/
def wormholeIdOf (chain : String) : Option Nat :=
  (CHAIN_IDS chain).bind ChainIdsRow.wormholeId

/-- `CHAIN_IDS[chain]?.axelarName`. -/
def axelarNameOf (chain : String) : Option String :=
  (CHAIN_IDS chain).bind ChainIdsRow.axelarName

/-- `CHAIN_IDS[chain]?.evmId`. -/
def evmIdOf (chain : String) : Option Nat := (CHAIN_IDS chain).bind ChainIdsRow.evmId

/-- The fields `getAcrossQuote` reads from a successful response body. -/
structure AcrossFetch where
  relayFeePct : ℚ
  capitalFeePct : ℚ
  totalRelayFee : Option ℚ
deriving DecidableEq

/-- A settled `fetch` for Across: `fail` covers a thrown error and a
non-ok response (both return `null` in the source). -/
inductive AcrossFetchResult where
  | fail
  | ok (data : AcrossFetch)
deriving DecidableEq

/-- `getAcrossQuote({fromChain, toChain, token, amount})`. Returns
`null` without both `acrossId`s, without both configured token
addresses, or on a failed call; otherwise a quote with
`executionReady: false` ("Across does not support Celo source chain"). -/
def getAcrossQuote (params : RouteParams) (tokenAddr : String → String → Bool)
    (fetch : AcrossFetchResult) : Option Quote :=
  if (acrossIdOf params.fromChain).isNone || (acrossIdOf params.toChain).isNone then none
  else if !(tokenAddr params.fromChain params.token && tokenAddr params.toChain params.token)
      then none
  else match fetch with
    | .fail => none
    | .ok d =>
        some { bridge := "Across"
               feeUSD := d.relayFeePct * params.amount / 100
                 + d.capitalFeePct * params.amount / 100
               estimatedMinutes := 2
               successRate := 98 / 100
               liquidityUSD := d.totalRelayFee.getD 999999 / 1000000
               executionMethod := "across_relay"
               executionReady := false }

/-- A settled `fetch` for Wormhole: a thrown error yields `null` (the
catch), a non-ok response yields the conservative estimate quote, a
successful response carries the optional fee and liquidity fields. -/
inductive WormholeFetchResult where
  | throw
  | notOk
  | ok (feeUsd : Option ℚ) (liquidity : Option ℚ)
deriving DecidableEq

/-- `getWormholeQuote`. All its quotes have `executionReady: true`. -/
def getWormholeQuote (params : RouteParams) (fetch : WormholeFetchResult) : Option Quote :=
  if (wormholeIdOf params.fromChain).isNone || (wormholeIdOf params.toChain).isNone then none
  else match fetch with
    | .throw => none
    | .notOk =>
        some { bridge := "Wormhole"
               feeUSD := params.amount * (1 / 1000) + 1 / 2
               estimatedMinutes := 15
               successRate := 97 / 100
               liquidityUSD := 10000000
               executionMethod := "wormhole_ntt"
               executionReady := true }
    | .ok feeUsd liquidity =>
        some { bridge := "Wormhole"
               feeUSD := feeUsd.getD (params.amount * (1 / 1000) + 1 / 2)
               estimatedMinutes := 15
               successRate := 97 / 100
               liquidityUSD := liquidity.getD 10000000
               executionMethod := "wormhole_ntt"
               executionReady := true }

/-- A settled `fetch` for Axelar: `fail` covers a throw and a non-ok
response. -/
inductive AxelarFetchResult where
  | fail
  | ok (feeTotal : Option ℚ)
deriving DecidableEq

/-- `getAxelarQuote`. All its quotes have `executionReady: true`. -/
def getAxelarQuote (params : RouteParams) (fetch : AxelarFetchResult) : Option Quote :=
  if (axelarNameOf params.fromChain).isNone || (axelarNameOf params.toChain).isNone then none
  else match fetch with
    | .fail => none
    | .ok feeTotal =>
        some { bridge := "Axelar"
               feeUSD := feeTotal.getD (params.amount * (2 / 1000))
               estimatedMinutes := 5
               successRate := 96 / 100
               liquidityUSD := 5000000
               executionMethod := "axelar_gmp"
               executionReady := true }

/-- A settled `fetch` for Celer: `fail` covers a throw and a non-ok
response, `err` a body with `data.err` set. -/
inductive CelerFetchResult where
  | fail
  | err
  | ok (fee : Option ℚ) (liqAmt : Option ℚ)
deriving DecidableEq

/-- `getCelerQuote`. All its quotes have `executionReady: true`. -/
def getCelerQuote (params : RouteParams) (tokenAddr : String → String → Bool)
    (fetch : CelerFetchResult) : Option Quote :=
  if (evmIdOf params.fromChain).isNone || (evmIdOf params.toChain).isNone then none
  else if !(tokenAddr params.fromChain params.token) then none
  else match fetch with
    | .fail => none
    | .err => none
    | .ok fee liqAmt =>
        some { bridge := "Celer"
               feeUSD := fee.getD (params.amount * (3 / 1000))
               estimatedMinutes := 5
               successRate := 95 / 100
               liquidityUSD := liqAmt.getD 1000000 / 1000000
               executionMethod := "celer_cbridge"
               executionReady := true }

/-- `getLayerZeroQuote`. The body performs no network call: it is a
deterministic fee model. It fulfills with an `executionReady: true`
quote whenever both `layerzeroId`s exist, else `null`; nothing in its
try block can throw. -/
def getLayerZeroQuote (params : RouteParams) : Option Quote :=
  if (layerzeroIdOf params.fromChain).isNone || (layerzeroIdOf params.toChain).isNone then none
  else
    some { bridge := "LayerZero/Stargate"
           feeUSD := params.amount * (6 / 10000) + 45 / 100
           estimatedMinutes := 3
           successRate := 97 / 100
           liquidityUSD := 50000000
           executionMethod := "layerzero_stargate"
           executionReady := true }

/-- The network-outcome environment of one aggregation: the
`config.TOKENS` address table (truthiness of
`TOKENS[chain.toUpperCase()]?.[token]`) and the settled outcome of each
provider's call. -/
structure ProviderEnv where
  tokenAddr : String → String → Bool
  acrossFetch : AcrossFetchResult
  wormholeFetch : WormholeFetchResult
  axelarFetch : AxelarFetchResult
  celerFetch : CelerFetchResult

/-- The `Promise.allSettled([...])` outcome list of
`getBestBridgeRoute`'s fan-out as the program can actually produce it. -/
def allSettledResults (params : RouteParams) (penv : ProviderEnv) : List (Option Quote) :=
  [getAcrossQuote params penv.tokenAddr penv.acrossFetch,
   getWormholeQuote params penv.wormholeFetch,
   getAxelarQuote params penv.axelarFetch,
   getCelerQuote params penv.tokenAddr penv.celerFetch,
   getLayerZeroQuote params]

/-- A settled-outcome list in which a non-executable quote never comes
alone: if some fulfilled quote has `executionReady = false`, some
fulfilled quote has `executionReady = true`. Every list the five
adapters can produce satisfies this (`allSettledResults_ok`). -/
def ResultsOk (results : List (Option Quote)) : Prop :=
  (∃ q, some q ∈ results ∧ q.executionReady = false) →
    (∃ q, some q ∈ results ∧ q.executionReady = true)

/-! ## `validator.js`: the guardrail validator -/

/-- A parsed transfer intent, as consumed by `validateTransfer` and
`processTransfer`. Optional fields model keys the intent parser may
leave `undefined`/`null` (JS destructuring defaults are applied at the
use sites, as in the source). -/
structure TransferIntent where
  toAddress : List Char
  token : String
  amount : ℚ
  fromChain : Option String
  toChain : String
  fromAddress : Option (List Char)
  rawMessage : Option (List Char)
  priority : Option String
deriving DecidableEq

/-- `TOKEN_SUPPORT_MATRIX[chain]` is defined (the chain has a row). -/
def tokenSupportDefined (chain : String) : Bool :=
  ["solana", "base", "ethereum", "polygon", "arbitrum", "celo", "optimism", "bnb",
    "tron"].contains chain

/-- `TOKEN_SUPPORT_MATRIX[chain][token]` is `true`. A token key absent
from a row is JS `undefined`, i.e. falsy, so it maps to `false`. -/
def tokenSupported (chain token : String) : Bool :=
  if chain == "celo" then
    token == "USDC" || token == "USDT" || token == "USDm" || token == "CELO"
  else if chain == "tron" then token == "USDT"
  else if ["solana", "base", "ethereum", "polygon", "arbitrum", "optimism",
      "bnb"].contains chain then
    token == "USDC" || token == "USDT"
  else false

/-- Supported tokens of a chain's row, in the row's declared key order
(`Object.entries` filter in check 2's suggestion). -/
def supportedTokensOn (chain : String) : List String :=
  (["USDC", "USDT", "USDm", "CELO"]).filter (fun t => tokenSupported chain t)

/-- The `detectChainFromAddress(toAddress, intent.rawMessage || "")` call
at the top of `validateTransfer`. -/
def vtDetected (intent : TransferIntent) : ChainDetectResult :=
  detectChainFromAddress intent.toAddress (intent.rawMessage.getD [])

/-- `const chain = detectedChain.chain !== "unknown" ? detectedChain.chain : toChain`. -/
def vtChain (intent : TransferIntent) : String :=
  if (vtDetected intent).chain ≠ "unknown" then (vtDetected intent).chain else intent.toChain

/-- Check 6 of `validateTransfer`: source and destination are the same
address (case-insensitively) on the same chain. JS guards with
truthiness of both lowered addresses (`fromAddr && toAddr && ...`), so a
missing or empty address disables the check. -/
def vtSelfTransfer (intent : TransferIntent) : Bool :=
  match intent.fromAddress with
  | none => false
  | some f =>
      let fl := toLowerChars f
      let tl := toLowerChars intent.toAddress
      !fl.isEmpty && !tl.isEmpty && fl == tl && (intent.fromChain.getD "celo") == vtChain intent

/-- The `errors` array built by `validateTransfer`, in push order
(checks 1, 2, 3, 4, 5). Exact interpolated values inside the message
texts (slices, `toFixed` renderings) are abbreviated; the conditions are
exact. When `amount = 0` the JS fee percentage is `Infinity` (a warning
path only); in `ℚ` division by zero yields `0`, which can only drop an
advisory warning, never change an error. -/
def vtErrors (intent : TransferIntent) (bridgeQuote : Option Quote) : List String :=
  let detected := vtDetected intent
  let chain := vtChain intent
  let amount := intent.amount
  (if detected.chain == "unknown" then
    ["Cannot identify destination chain for address."]
  else [])
  ++ (if detected.chain != "unknown" then
        (let ac := validateAddressForChain intent.toAddress detected.chain
         if !ac.valid then ["Address validation failed: " ++ ac.reason] else [])
      else [])
  ++ (if tokenSupportDefined chain && !(tokenSupported chain intent.token) then
        [intent.token ++ " is not natively supported on " ++ chain ++ "."]
      else [])
  ++ (if amount = 0 ∨ amount ≤ 0 then ["Transfer amount must be greater than 0."] else [])
  ++ (if amount < 1 then
        ["Minimum transfer is $1. Gas fees alone would exceed the transfer amount."]
      else [])
  ++ (match bridgeQuote with
      | none =>
          ["No bridge route found for " ++ intent.token ++ " from "
            ++ intent.fromChain.getD "celo" ++ " to " ++ chain ++ "."]
      | some _ => [])
  ++ (if intent.token == "USDm" && chain != "celo" then
        ["USDm (Mento Dollar) is only available on Celo."]
      else [])

/-- The `warnings` array built by `validateTransfer`, in push order
(checks 2, 3, 4, 6). -/
def vtWarnings (intent : TransferIntent) (bridgeQuote : Option Quote) : List String :=
  let chain := vtChain intent
  let amount := intent.amount
  (if !(tokenSupportDefined chain) then
    ["Token support data unavailable for " ++ chain ++ ". Proceeding with caution."]
  else [])
  ++ (if 50000 < amount then
        ["Large transfer. Consider splitting into smaller amounts to reduce risk."]
      else [])
  ++ (match bridgeQuote with
      | none => []
      | some q =>
          (if 5 < q.feeUSD / amount * 100 then
            ["Bridge fee is unusually high."]
          else [])
          ++ (if q.liquidityUSD < amount * 2 then
                ["Low liquidity on " ++ q.bridge ++ ". Transfer may fail or be delayed."]
              else [])
          ++ (if q.successRate < 95 / 100 then
                [q.bridge ++ " has a low success rate. Consider an alternative bridge."]
              else []))
  ++ (if vtSelfTransfer intent then
        ["Source and destination appear to be the same address on the same chain."]
      else [])

/-- The `suggestions` array built by `validateTransfer`, in push order
(checks 1, 2, 4, 5, 6). -/
def vtSuggestions (intent : TransferIntent) (bridgeQuote : Option Quote) : List String :=
  let detected := vtDetected intent
  let chain := vtChain intent
  let amount := intent.amount
  (if detected.chain == "unknown" then
    ["Make sure you copied the full destination address correctly."]
  else [])
  ++ (if tokenSupportDefined chain && !(tokenSupported chain intent.token)
        && !(supportedTokensOn chain).isEmpty then
        ["On " ++ chain ++ ", you can use: "
          ++ String.intercalate ", " (supportedTokensOn chain) ++ ". Consider swapping first."]
      else [])
  ++ (match bridgeQuote with
      | none =>
          ["Try a different token (e.g., USDC instead of USDT) or a different destination chain."]
      | some q =>
          (if 5 < q.feeUSD / amount * 100 then
            ["Consider waiting for lower network congestion, or try a different bridge."]
          else [])
          ++ (if q.liquidityUSD < amount * 2 then
                ["Try a different bridge or split the transfer into smaller amounts."]
              else []))
  ++ (if intent.token == "USDm" && chain != "celo" then
        ["Swap USDm to USDC on Celo first, then bridge."]
      else [])
  ++ (if vtSelfTransfer intent then
        ["If you are testing, this transfer will cost gas fees but return to the same wallet."]
      else [])

/-- `buildValidationSummary(errors, warnings, suggestions)`. -/
def buildValidationSummary (errors warnings suggestions : List String) : String :=
  if errors.isEmpty && warnings.isEmpty then
    "All checks passed. Ready to execute."
  else
    ((if !errors.isEmpty then
        toString errors.length ++ " issue(s) must be resolved:\n"
          ++ String.intercalate "\n" (errors.map (fun e => "  - " ++ e)) ++ "\n"
      else "")
      ++ (if !warnings.isEmpty then
            toString warnings.length ++ " warning(s):\n"
              ++ String.intercalate "\n" (warnings.map (fun w => "  - " ++ w)) ++ "\n"
          else "")
      ++ (if !suggestions.isEmpty then
            "Suggestions:\n" ++ String.intercalate "\n" (suggestions.map (fun s => "  - " ++ s))
          else "")).trim

/-- The `ValidationVerdict` returned by `validateTransfer`. -/
structure ValidationVerdict where
  valid : Bool
  detectedChain : ChainDetectResult
  errors : List String
  warnings : List String
  suggestions : List String
  summary : String
deriving DecidableEq

/-- `validateTransfer(intent, bridgeQuote)`. -/
def validateTransfer (intent : TransferIntent) (bridgeQuote : Option Quote) :
    ValidationVerdict :=
  { valid := (vtErrors intent bridgeQuote).isEmpty
    detectedChain := vtDetected intent
    errors := vtErrors intent bridgeQuote
    warnings := vtWarnings intent bridgeQuote
    suggestions := vtSuggestions intent bridgeQuote
    summary := buildValidationSummary (vtErrors intent bridgeQuote)
      (vtWarnings intent bridgeQuote) (vtSuggestions intent bridgeQuote) }

/-! ## `orchestrator.js`: sessions and the transfer state machine -/

/-- One entry of `session.history`. -/
structure Turn where
  role : String
  content : List Char
deriving DecidableEq

/-- `session.pendingTransaction`. -/
structure PendingTx where
  intent : TransferIntent
  bridgeQuote : Quote
  chainInfo : ChainDetectResult
  validation : ValidationVerdict
  allQuotes : List Quote
deriving DecidableEq

/-- An alert stored on the session by the orchestrator's `registerAlert`
(`{ id, ...intent, createdAt }`). -/
structure SessionAlert where
  id : String
  condition : String
  threshold : Option ℚ
  action : String
  createdAt : Nat
deriving DecidableEq

/-- A per-conversation `TransferSession` (`createSession`). The
`connectedChain` and `createdAt` bookkeeping fields are omitted (never
read by the verified control flow). -/
structure Session where
  sessionId : String
  state : String
  walletAddress : Option (List Char)
  history : List Turn
  pendingTransaction : Option PendingTx
  alerts : List SessionAlert
deriving DecidableEq

/-- `createSession(sessionId, walletInfo)`. -/
def createSession (sessionId : String) (walletAddress : Option (List Char)) : Session :=
  { sessionId := sessionId
    state := "idle"
    walletAddress := walletAddress
    history := []
    pendingTransaction := none
    alerts := [] }

/-- An alert-registration intent (`type: "alert"`). -/
structure AlertIntent where
  condition : String
  threshold : Option ℚ
  action : String
deriving DecidableEq

/-- A swap-and-transfer intent (`type: "swap_and_transfer"`). -/
structure SwapTransferIntent where
  fromToken : String
  toToken : String
  amount : ℚ
  fromChain : Option String
  toChain : String
  toAddress : List Char
  priority : Option String
deriving DecidableEq

/-- A read-only query intent (`type: "query"`). -/
structure QueryIntent where
  queryType : String
  chain : String
  token : String
deriving DecidableEq

/-- A clarification intent (`type: "clarification_needed"`); the partial
intent only feeds the reply text. -/
structure ClarificationIntent where
  missingFields : List String
  hintAmount : Option ℚ
  hintToken : Option String
deriving DecidableEq

/-- The tagged union returned by `parseIntent`. -/
inductive Intent where
  | transfer (t : TransferIntent)
  | swapAndTransfer (st : SwapTransferIntent)
  | alert (a : AlertIntent)
  | query (q : QueryIntent)
  | clarificationNeeded (c : ClarificationIntent)
  | other
deriving DecidableEq

/-- A swap route from `getSwapRoute` (only `priceImpact` is read). -/
structure SwapRoute where
  priceImpact : ℚ
deriving DecidableEq

/-- The settled outcome of the on-chain part of `executeTransfer`:
wallet setup, ERC-20 approval and the provider-specific bridge
submission. Any throw inside the try block (missing token or bridge
configuration, unknown execution method, failed approval or submission)
is a `failure`. -/
inductive ExecOutcome where
  | success (txHash : String)
  | failure (err : String)
deriving DecidableEq

/-- The external effects one `handleUserMessage` turn can consume:
the parsed intent (LLM with deterministic fallback), the settled bridge
provider results, the swap route, the on-chain execution outcome, the
generated preview text, and the clock (`Date.now()`). -/
structure OrchEnv where
  intent : Intent
  providerResults : List (Option Quote)
  swapRoute : Option SwapRoute
  execOutcome : ExecOutcome
  previewText : String
  now : Nat

/-- The `{ message, state }` reply of a turn (the optional machine
readable `data` payload is presentational and omitted). -/
structure Response where
  message : String
  state : String
deriving DecidableEq

/-- Result of one orchestrator turn: the updated session, the reply, and
the list of pending transfers submitted to the execution dispatcher
during the turn (for `executeTransfer` invocation tracking). -/
structure StepResult where
  session : Session
  response : Response
  dispatches : List PendingTx
deriving DecidableEq

/-- The affirmative vocabulary of `handleConfirmation`. -/
def yesWords : List (List Char) :=
  (["yes", "y", "confirm", "ok", "sure", "proceed", "execute", "go"]).map String.toList

/-- The negative vocabulary of `handleConfirmation`. -/
def noWords : List (List Char) :=
  (["no", "n", "cancel", "stop", "abort", "nevermind"]).map String.toList

/-- `isYes`: some affirmative token occurs in the trimmed, lowercased
message (`msg.includes(w)`). -/
def isYesMsg (userMessage : List Char) : Bool :=
  let msg := toLowerChars (trimChars userMessage)
  yesWords.any (fun w => strIncludes msg w)

/-- `isNo`: some negative token occurs in the trimmed, lowercased message. -/
def isNoMsg (userMessage : List Char) : Bool :=
  let msg := toLowerChars (trimChars userMessage)
  noWords.any (fun w => strIncludes msg w)

/-- `executeTransfer(session)`.

JS destructures `session.pendingTransaction` outside the try block; on
`null` the TypeError propagates to `handleUserMessage`'s catch, which
sets the session to idle and replies with a generic error (modelled by
the `none` branch). With a pending transfer present the dispatcher is
invoked (recorded in `dispatches`); success clears the pending transfer,
failure only resets the state to idle. -/
def executeTransfer (env : OrchEnv) (session : Session) : StepResult :=
  match session.pendingTransaction with
  | none =>
      { session := { session with state := "idle" }
        response := ⟨"Something went wrong on my end. Please try again.", "error"⟩
        dispatches := [] }
  | some pt =>
      match env.execOutcome with
      | .success txHash =>
          { session := { session with
              state := "idle"
              pendingTransaction := none
              history := session.history
                ++ [⟨"assistant", ("Transfer submitted: " ++ txHash).toList⟩] }
            response := ⟨"Transfer submitted successfully: " ++ txHash, "idle"⟩
            dispatches := [pt] }
      | .failure err =>
          { session := { session with state := "idle" }
            response := ⟨"Transfer failed: " ++ err, "error"⟩
            dispatches := [pt] }

/-- `handleConfirmation(session, userMessage)`. -/
def handleConfirmation (env : OrchEnv) (session : Session) (userMessage : List Char) :
    StepResult :=
  if isYesMsg userMessage then
    executeTransfer env { session with state := "executing" }
  else if isNoMsg userMessage then
    { session := { session with state := "idle", pendingTransaction := none }
      response := ⟨"Transaction cancelled. No funds were moved.", "idle"⟩
      dispatches := [] }
  else
    { session := session
      response := ⟨"Please reply YES to confirm the transaction or NO to cancel it.",
        "awaiting_confirmation"⟩
      dispatches := [] }

/-- The `detectChainFromAddress(toAddress, session.history...join(" "))`
call at the top of `processTransfer`. -/
def transferChainInfo (session : Session) (t : TransferIntent) : ChainDetectResult :=
  detectChainFromAddress t.toAddress (joinSpace (session.history.map Turn.content))

/-- The route-request parameters `processTransfer` passes to
`getBestBridgeRoute` (with the JS destructuring defaults). -/
def transferRouteParams (t : TransferIntent) (toChain : String) : RouteParams :=
  ⟨t.fromChain.getD "celo", toChain, t.token, t.amount, t.priority.getD "cheapest"⟩

/-- `processTransfer(session, intent)`. -/
def processTransfer (env : OrchEnv) (session : Session) (t : TransferIntent) : StepResult :=
  let chainInfo := transferChainInfo session t
  let toChain := chainInfo.chain
  if toChain == "unknown" then
    { session := session
      response := ⟨"I see the wallet address, but I am not sure which blockchain it belongs to. Could you tell me the destination chain?",
        "idle"⟩
      dispatches := [] }
  else if chainInfo.unsupported then
    { session := session
      response := ⟨"Warning: " ++ chainInfo.note, "idle"⟩
      dispatches := [] }
  else
    let routeResult := getBestBridgeRoute (transferRouteParams t toChain) env.providerResults
    match routeResult.best with
    | none =>
        { session := session
          response := ⟨(if toChain == "solana" then
              "I can find routes from Celo to Solana, but the Wormhole bridge SDK is not installed on the server yet."
            else
              "I could not find a working bridge route for " ++ t.token ++ " from Celo to "
                ++ toChain ++ " right now."), "idle"⟩
          dispatches := [] }
    | some bridgeQuote =>
        let intentC := { t with toChain := toChain }
        let validation := validateTransfer intentC (some bridgeQuote)
        if !validation.valid then
          { session := session
            response := ⟨"Validation failed: " ++ validation.summary, "idle"⟩
            dispatches := [] }
        else
          let feeRatio := bridgeQuote.feeUSD / t.amount
          if 1 / 4 < feeRatio then
            { session := session
              response := ⟨"I found a route via " ++ bridgeQuote.bridge
                ++ ", but the fee is too high a share of your transfer. This is too high to proceed automatically. Would you like to adjust the amount and try again?",
                "idle"⟩
              dispatches := [] }
          else
            let fullMessage := env.previewText
              ++ (if 0 < routeResult.warnings.length ∨ 0 < validation.warnings.length then
                    "\n\n" ++ String.intercalate "\n" (routeResult.warnings ++ validation.warnings)
                  else "")
              ++ (if 0 < validation.suggestions.length then
                    "\n\nSuggestion: " ++ String.intercalate "\nSuggestion: " validation.suggestions
                  else "")
            let pt : PendingTx := ⟨intentC, bridgeQuote, chainInfo, validation, routeResult.all⟩
            { session := { session with
                pendingTransaction := some pt
                state := "awaiting_confirmation"
                history := session.history ++ [⟨"assistant", fullMessage.toList⟩] }
              response := ⟨fullMessage, "awaiting_confirmation"⟩
              dispatches := [] }

/-- `processSwapAndTransfer(session, intent)`. -/
def processSwapAndTransfer (env : OrchEnv) (session : Session) (st : SwapTransferIntent) :
    StepResult :=
  match env.swapRoute with
  | none =>
      { session := session
        response := ⟨"I could not find a swap route for " ++ st.fromToken ++ " to "
          ++ st.toToken ++ ".", "idle"⟩
        dispatches := [] }
  | some sr =>
      processTransfer env session
        { toAddress := st.toAddress
          token := st.toToken
          amount := st.amount * (1 - sr.priceImpact)
          fromChain := st.fromChain
          toChain := st.toChain
          fromAddress := none
          rawMessage := none
          priority := st.priority }

/-- The orchestrator's `registerAlert(session, intent)`: appends the
alert to `session.alerts` only. -/
def registerAlert (env : OrchEnv) (session : Session) (a : AlertIntent) : StepResult :=
  let alertId := "alert_" ++ toString env.now
  { session := { session with
      alerts := session.alerts ++ [⟨alertId, a.condition, a.threshold, a.action, env.now⟩] }
    response := ⟨"Alert registered! Alert ID: " ++ alertId, "idle"⟩
    dispatches := [] }

/-- `handleQuery(session, intent)`. -/
def handleQuery (env : OrchEnv) (session : Session) (q : QueryIntent) : StepResult :=
  if q.queryType == "fee_check" then
    let r := getBestBridgeRoute ⟨"celo", q.chain, q.token, 100, "cheapest"⟩ env.providerResults
    match r.best with
    | none =>
        { session := session
          response := ⟨"No bridge route found for " ++ q.token ++ " to " ++ q.chain ++ ".",
            "idle"⟩
          dispatches := [] }
    | some best =>
        { session := session
          response := ⟨"Current estimated fees: best is " ++ best.bridge ++ ".", "idle"⟩
          dispatches := [] }
  else
    { session := session
      response := ⟨"I can check fees, prices, and balances. What would you like to know?",
        "idle"⟩
      dispatches := [] }

/-- `handleClarification(session, intent)` (pure reply selection). -/
def handleClarification (c : ClarificationIntent) : Response :=
  if c.missingFields.contains "toAddress" && c.missingFields.contains "amount" then
    ⟨"To send a transfer I just need the destination wallet address and the amount and token.",
      "idle"⟩
  else if c.missingFields.contains "toAddress" then
    ⟨"Where should I send it? Please give me the destination wallet address.", "idle"⟩
  else if c.missingFields.contains "amount" then
    ⟨"How much would you like to send, and which token?", "idle"⟩
  else if c.missingFields.contains "token" then
    ⟨"Which token would you like to send? I support USDT, USDC, USDm, and CELO on Celo.",
      "idle"⟩
  else
    ⟨"I need a little more detail.", "idle"⟩

/-- The `session.history.push({ role: "user", ... })` after intent
parsing in `handleUserMessage`. -/
def pushUserTurn (session : Session) (userMessage : List Char) : Session :=
  { session with history := session.history ++ [⟨"user", userMessage⟩] }

/-- The `switch (intent.type)` block of `handleUserMessage`, applied to
the session with the user turn already pushed. -/
def routeIntent (env : OrchEnv) (session : Session) : StepResult :=
  match env.intent with
  | .transfer t => processTransfer env session t
  | .swapAndTransfer st => processSwapAndTransfer env session st
  | .alert a => registerAlert env session a
  | .query q => handleQuery env session q
  | .clarificationNeeded c =>
      { session := session, response := handleClarification c, dispatches := [] }
  | .other =>
      { session := session
        response := ⟨"Hey! I am your cross-chain transfer assistant.", "idle"⟩
        dispatches := [] }

/-- `handleUserMessage(sessionId, userMessage)`, acting on the stored
session of the id. In the `awaiting_confirmation` state the message goes
to `handleConfirmation`; otherwise the parsed intent (`env.intent`) is
routed by type after the user turn is appended to the history. -/
def handleUserMessage (env : OrchEnv) (session : Session) (userMessage : List Char) :
    StepResult :=
  if session.state == "awaiting_confirmation" then
    handleConfirmation env session userMessage
  else
    routeIntent env (pushUserTurn session userMessage)

/-! ## `layerzero.js` alert engine: registry, condition checks, polling -/

namespace AlertEngine

/-- A standing alert in the engine's `activeAlerts` registry
(insertion-ordered, keyed by `alertId`). `createdAt`/`triggeredAt`
timestamps are bookkeeping and omitted. -/
structure EngineAlert where
  alertId : String
  sessionId : String
  condition : String
  threshold : ℚ
  fromChain : Option String
  targetChain : String
  token : Option String
  amount : Option ℚ
  action : String
  triggered : Bool
deriving DecidableEq

/-- The fields of a parsed alert intent spread into a new registry entry
by the engine's `registerAlert`. -/
structure EngineAlertIntent where
  condition : String
  threshold : ℚ
  fromChain : Option String
  targetChain : String
  token : Option String
  amount : Option ℚ
  action : String
deriving DecidableEq

/-- The alert engine's `registerAlert(sessionId, alertIntent)`:
inserts a fresh non-triggered alert keyed `sessionId_now` and returns
its id. -/
def registerAlert (now : Nat) (sessionId : String) (a : EngineAlertIntent)
    (registry : List EngineAlert) : String × List EngineAlert :=
  let alertId := sessionId ++ "_" ++ toString now
  (alertId,
    registry ++ [⟨alertId, sessionId, a.condition, a.threshold, a.fromChain, a.targetChain,
      a.token, a.amount, a.action, false⟩])

/-- The external feeds `checkPriceAlert` consults: the bridge-fee
aggregation (`getCurrentBridgeFees(fromChain, targetChain, token,
amount).minFeeUSD`), the CoinGecko token price, and the per-chain gas
transfer cost. `none` models an unavailable value (JS `null` or a
missing key). -/
structure AlertEnv where
  bridgeMinFee : String → String → String → ℚ → Option ℚ
  tokenPrice : Option String → Option ℚ
  gasTransferCostUSD : String → Option ℚ

/-- `checkPriceAlert(alert)`. -/
def checkPriceAlert (env : AlertEnv) (a : EngineAlert) : Bool :=
  if a.triggered then false
  else if a.condition == "fee_below" then
    match env.bridgeMinFee (a.fromChain.getD "celo") a.targetChain (a.token.getD "USDC")
        (a.amount.getD 100) with
    | some f => decide (f < a.threshold)
    | none => false
  else if a.condition == "price_below" then
    match env.tokenPrice a.token with
    | some p => decide (p < a.threshold)
    | none => false
  else if a.condition == "price_above" then
    match env.tokenPrice a.token with
    | some p => decide (a.threshold < p)
    | none => false
  else if a.condition == "gas_below" then
    match env.gasTransferCostUSD a.targetChain with
    | some c => decide (c < a.threshold)
    | none => false
  else false

/-- The body of one polling-loop iteration of `startAlertPolling` for a
single alert: already-triggered alerts are skipped (`continue`);
otherwise, if the condition is met, `triggered` is set. -/
def stepAlert (env : AlertEnv) (a : EngineAlert) : EngineAlert :=
  if a.triggered then a
  else if checkPriceAlert env a then { a with triggered := true }
  else a

/-- One polling tick over the whole registry: the registry after the
tick (the loop mutates the stored alert objects in place). -/
def tickAlerts (env : AlertEnv) (registry : List EngineAlert) : List EngineAlert :=
  registry.map (stepAlert env)

/-- The `(alertId, alert)` payload passed to the `onAlertTriggered`
callback. -/
structure TriggerEvent where
  alertId : String
  sessionId : String
deriving DecidableEq

/-- The callback invocation one loop iteration makes for one alert:
`some` event exactly when the alert was not yet triggered and its
condition is met. -/
def eventOf (env : AlertEnv) (a : EngineAlert) : Option TriggerEvent :=
  if a.triggered then none
  else if checkPriceAlert env a then some ⟨a.alertId, a.sessionId⟩
  else none

/-- The callback invocations emitted during one polling tick, in
registry order. -/
def tickEvents (env : AlertEnv) (registry : List EngineAlert) : List TriggerEvent :=
  registry.filterMap (eventOf env)

end AlertEngine

/-- Process-wide state beyond the per-session store: the alert engine's
`activeAlerts` registry (a module-level Map in `layerzero.js`). -/
structure GlobalState where
  activeAlerts : List AlertEngine.EngineAlert

/-- One chat turn viewed together with the alert engine's registry.
`orchestrator.js` imports only `checkPriceAlert` from the alert engine
and never references the registry, so a chat turn leaves `activeAlerts`
untouched — the orchestrator's own `registerAlert` writes to
`session.alerts` only. -/
def handleUserMessageG (env : OrchEnv) (g : GlobalState) (session : Session)
    (userMessage : List Char) : GlobalState × StepResult :=
  (g, handleUserMessage env session userMessage)

/-- The session's pending transfer (if any) holds an execution-ready
quote. -/
def ReadyInv (s : Session) : Prop :=
  ∀ pt, s.pendingTransaction = some pt → pt.bridgeQuote.executionReady = true

/-- A multi-turn run of the orchestrator: fold `handleUserMessage` over
a sequence of (environment, user message) turns, collecting every
pending transfer submitted to the execution dispatcher along the way. -/
def runTurns (s : Session) : List (OrchEnv × List Char) → Session × List PendingTx
  | [] => (s, [])
  | (env, m) :: rest =>
      let r := handleUserMessage env s m
      let tail := runTurns r.session rest
      (tail.1, r.dispatches ++ tail.2)

/-! ## Concrete instances used by witnesses and counterexamples -/

/-- Two quotes that tie on every sort key but differ in provider id
(`qTieA`'s id sorts strictly before `qTieB`'s). -/
def qTieB : Quote := ⟨"B", 1, 1, 1, 1000, "bridge_b", true⟩

/-- See `qTieB`. -/
def qTieA : Quote := ⟨"A", 1, 1, 1, 1000, "bridge_a", true⟩

/-- An Across quote, as built by `getAcrossQuote` for an EVM-to-EVM
route: `executionReady` is hard-coded `false` there ("Across does not
support Celo source chain"). -/
def acrossQ : Quote := ⟨"Across", 1, 2, 98 / 100, 1000000, "across_relay", false⟩

/-- A Wormhole-shaped quote whose fee is 60% of a $100 transfer
(Scenario A of the spec). -/
def wormQ60 : Quote := ⟨"Wormhole", 60, 15, 97 / 100, 10000000, "wormhole_ntt", true⟩

/-- A syntactically valid EVM destination address. -/
def addrEVM : List Char := "0xA1B2C3D4E5F6A1B2C3D4E5F6A1B2C3D4E5F6A1B2".toList

/-- A user message carrying the destination address and a "base"
context hint. -/
def msgBase : List Char :=
  "send 100 USDC from base to 0xA1B2C3D4E5F6A1B2C3D4E5F6A1B2C3D4E5F6A1B2".toList

/-- A transfer intent for 100 USDC to `addrEVM` with source chain
"base" (the Across-supported source needed for `acrossQ`). -/
def tAcross : TransferIntent :=
  ⟨addrEVM, "USDC", 100, some "base", "base", none, some msgBase, none⟩

/-- A transfer intent for 100 USDC to `addrEVM` (Scenario A). -/
def tScenA : TransferIntent :=
  ⟨addrEVM, "USDC", 100, none, "base", none, some msgBase, none⟩

/-- A fresh idle session. -/
def sIdle : Session := createSession "s1" none

/-- A session awaiting confirmation with a given pending transfer. -/
def sessionAwait (pt : Option PendingTx) : Session :=
  { sessionId := "s1"
    state := "awaiting_confirmation"
    walletAddress := none
    history := []
    pendingTransaction := pt
    alerts := [] }

/-- A pending transfer snapshot (holding `acrossQ`). -/
def ptDemo : PendingTx :=
  ⟨tAcross, acrossQ, ⟨"base", "high", "Base chain detected from context", false⟩,
    ⟨true, ⟨"base", "high", "Base chain detected from context", false⟩, [], [], [], ""⟩,
    [acrossQ]⟩

/-- An environment whose on-chain execution fails. -/
def envFail : OrchEnv := ⟨.other, [], none, .failure "insufficient allowance", "", 0⟩

/-- An environment whose on-chain execution succeeds. -/
def envSucc : OrchEnv := ⟨.other, [], none, .success "0xtxhash", "", 0⟩

/-- The environment of Scenario A: a transfer intent for `tScenA` with
a single ready quote whose fee is 60% of the amount. -/
def envScenA : OrchEnv :=
  ⟨.transfer tScenA, [some wormQ60], none, .failure "network", "preview", 0⟩

/-- Scenario D standing alert: fee_below $1 on route to base. -/
def alertD : AlertEngine.EngineAlert :=
  ⟨"s1_0", "s1", "fee_below", 1, none, "base", none, none, "notify", false⟩

/-- Scenario D feeds: the current best bridge fee is $0.80. -/
def alertEnvD : AlertEngine.AlertEnv :=
  ⟨fun _ _ _ _ => some (8 / 10), fun _ => none, fun _ => none⟩

/-- An environment whose parsed intent registers a fee alert
(`Date.now()` = 42). -/
def envAlert : OrchEnv :=
  ⟨.alert ⟨"fee_below", some 1, "notify"⟩, [], none, .failure "none", "", 42⟩

/-! ## Ranker lemmas -/

theorem policyLe_cheapest_iff (a b : Quote) :
    policyLe "cheapest" a b ↔ a.feeUSD ≤ b.feeUSD := by
  simp [policyLe]

theorem policyLe_fastest_iff (a b : Quote) :
    policyLe "fastest" a b ↔ a.estimatedMinutes ≤ b.estimatedMinutes := by
  simp [policyLe]

theorem policyLe_safest_iff (a b : Quote) :
    policyLe "safest" a b ↔ b.successRate ≤ a.successRate := by
  simp [policyLe]

theorem policyLe_balanced_iff (a b : Quote) :
    policyLe "balanced" a b ↔ balancedScore a ≤ balancedScore b := by
  simp [policyLe]

/-- Claim C5: for every intent and every quote (including none), the
verdict of `validateTransfer` is valid exactly when its error list is
empty; validity is computed from the error list alone, so warnings and
suggestions never affect it. -/
theorem validateTransfer_valid_iff (intent : TransferIntent) (bq : Option Quote) :
    (validateTransfer intent bq).valid = true ↔ (validateTransfer intent bq).errors = [] := by
  simp [validateTransfer, List.isEmpty_iff]

/-- Claim C4: if every provider call fails or yields no quote, the
aggregation returns `best = none`, an empty quote list and a non-empty
warning list; the function is total, so no input aborts it. -/
theorem getBestBridgeRoute_all_providers_fail (params : RouteParams)
    (results : List (Option Quote)) (h : ∀ r ∈ results, r = none) :
    (getBestBridgeRoute params results).best = none
      ∧ (getBestBridgeRoute params results).all = []
      ∧ (getBestBridgeRoute params results).warnings ≠ [] := by
  have hq : results.filterMap id = [] := List.filterMap_eq_nil_iff.mpr h
  simp [getBestBridgeRoute, hq]

/-- Witness for C4 at five failed providers. -/
theorem getBestBridgeRoute_all_providers_fail_witness :
    (∀ r ∈ ([none, none, none, none, none] : List (Option Quote)), r = none)
      ∧ (getBestBridgeRoute ⟨"celo", "base", "USDC", 100, "cheapest"⟩
          [none, none, none, none, none]).best = none
      ∧ (getBestBridgeRoute ⟨"celo", "base", "USDC", 100, "cheapest"⟩
          [none, none, none, none, none]).all = []
      ∧ (getBestBridgeRoute ⟨"celo", "base", "USDC", 100, "cheapest"⟩
          [none, none, none, none, none]).warnings ≠ [] := by
  have h : ∀ r ∈ ([none, none, none, none, none] : List (Option Quote)), r = none := by
    simp
  exact ⟨h, getBestBridgeRoute_all_providers_fail _ _ h⟩

/-- With exactly one provider returning a quote, that quote is the
aggregation's best, whether or not it is execution-ready (the fallback
keeps non-ready quotes when no ready quote exists). -/
theorem getBestBridgeRoute_single (params : RouteParams) (q : Quote) :
    (getBestBridgeRoute params [some q]).best = some q := by
  unfold getBestBridgeRoute rankQuotes
  cases hq : q.executionReady <;>
    simp [hq, List.insertionSort, List.orderedInsert]

/-- Claim C6: `rankQuotes` output is non-decreasing in `feeUSD` under
"cheapest", non-decreasing in `estimatedMinutes` under "fastest",
non-increasing in `successRate` under "safest", and non-decreasing in
the weighted score `0.4·feeUSD + 0.4·etaMinutes + 0.2·(1−successRate)·100`
under "balanced". -/
theorem rankQuotes_policy_monotone (l : List Quote) :
    (rankQuotes l "cheapest").Pairwise (fun a b => a.feeUSD ≤ b.feeUSD)
  ∧ (rankQuotes l "fastest").Pairwise (fun a b => a.estimatedMinutes ≤ b.estimatedMinutes)
  ∧ (rankQuotes l "safest").Pairwise (fun a b => b.successRate ≤ a.successRate)
  ∧ (rankQuotes l "balanced").Pairwise (fun a b =>
      a.feeUSD * (4 / 10) + a.estimatedMinutes * (4 / 10) + (1 - a.successRate) * 100 * (2 / 10)
        ≤ b.feeUSD * (4 / 10) + b.estimatedMinutes * (4 / 10)
          + (1 - b.successRate) * 100 * (2 / 10)) := by
  refine ⟨?_, ?_, ?_, ?_⟩
  · exact (List.sorted_insertionSort (policyLe "cheapest") l).imp
      (fun h => (policyLe_cheapest_iff _ _).mp h)
  · exact (List.sorted_insertionSort (policyLe "fastest") l).imp
      (fun h => (policyLe_fastest_iff _ _).mp h)
  · exact (List.sorted_insertionSort (policyLe "safest") l).imp
      (fun h => (policyLe_safest_iff _ _).mp h)
  · exact (List.sorted_insertionSort (policyLe "balanced") l).imp
      (fun h => (policyLe_balanced_iff _ _).mp h)

/-- Claim C7 counterexample: on a tie `rankQuotes` does not order by
provider identifier ascending — it keeps the input order — and the
output differs on two orderings of the same quote set, so the ranking
is not a function of the set alone. -/
theorem rankQuotes_no_provider_tiebreak :
    qTieB.feeUSD = qTieA.feeUSD
  ∧ qTieA.bridge = "A" ∧ qTieB.bridge = "B"
  ∧ rankQuotes [qTieB, qTieA] "cheapest" = [qTieB, qTieA]
  ∧ rankQuotes [qTieA, qTieB] "cheapest" = [qTieA, qTieB]
  ∧ ([qTieB, qTieA] : List Quote).Perm [qTieA, qTieB]
  ∧ rankQuotes [qTieB, qTieA] "cheapest" ≠ rankQuotes [qTieA, qTieB] "cheapest" := by
  have h₁ : rankQuotes [qTieB, qTieA] "cheapest" = [qTieB, qTieA] := by
    norm_num [rankQuotes, List.insertionSort, List.orderedInsert, policyLe, qTieA, qTieB]
  have h₂ : rankQuotes [qTieA, qTieB] "cheapest" = [qTieA, qTieB] := by
    norm_num [rankQuotes, List.insertionSort, List.orderedInsert, policyLe, qTieA, qTieB]
  refine ⟨rfl, rfl, rfl, h₁, h₂, List.Perm.swap _ _ _, ?_⟩
  rw [h₁, h₂]
  intro h
  simp [qTieA, qTieB] at h

/-- Claim C7 amended: the sort is stable — a pair of quotes in key
order (ties included) keeps its relative input order in the output —
so the ranking is a deterministic function of the input quote list,
including its order, rather than of the quote set. -/
theorem rankQuotes_stable (p : String) {a b : Quote} {l : List Quote}
    (hab : policyLe p a b) (h : [a, b].Sublist l) :
    [a, b].Sublist (rankQuotes l p) :=
  List.pair_sublist_insertionSort hab h

/-- Witness for the amended C7 on the tied pair. -/
theorem rankQuotes_stable_witness :
    policyLe "cheapest" qTieB qTieA
      ∧ [qTieB, qTieA].Sublist [qTieB, qTieA]
      ∧ [qTieB, qTieA].Sublist (rankQuotes [qTieB, qTieA] "cheapest") := by
  have hab : policyLe "cheapest" qTieB qTieA := by
    rw [policyLe_cheapest_iff]
    norm_num [qTieA, qTieB]
  exact ⟨hab, List.Sublist.refl _, rankQuotes_stable "cheapest" hab (List.Sublist.refl _)⟩

/-! ## State machine lemmas -/

theorem processTransfer_dispatches (env : OrchEnv) (s : Session) (t : TransferIntent) :
    (processTransfer env s t).dispatches = [] := by
  unfold processTransfer
  dsimp only
  repeat' split
  all_goals rfl

theorem processSwapAndTransfer_dispatches (env : OrchEnv) (s : Session)
    (st : SwapTransferIntent) : (processSwapAndTransfer env s st).dispatches = [] := by
  unfold processSwapAndTransfer
  split
  · rfl
  · exact processTransfer_dispatches env s _

theorem handleQuery_dispatches (env : OrchEnv) (s : Session) (q : QueryIntent) :
    (handleQuery env s q).dispatches = [] := by
  unfold handleQuery
  dsimp only
  repeat' split
  all_goals rfl

theorem routeIntent_dispatches (env : OrchEnv) (s : Session) :
    (routeIntent env s).dispatches = [] := by
  unfold routeIntent
  cases env.intent with
  | transfer t => exact processTransfer_dispatches env s t
  | swapAndTransfer st => exact processSwapAndTransfer_dispatches env s st
  | alert a => rfl
  | query q => exact handleQuery_dispatches env s q
  | clarificationNeeded c => rfl
  | other => rfl

theorem handleUserMessage_awaiting (env : OrchEnv) (s : Session) (m : List Char)
    (h : (s.state == "awaiting_confirmation") = true) :
    handleUserMessage env s m = handleConfirmation env s m := by
  simp [handleUserMessage, h]

theorem handleUserMessage_not_awaiting (env : OrchEnv) (s : Session) (m : List Char)
    (h : (s.state == "awaiting_confirmation") = false) :
    handleUserMessage env s m = routeIntent env (pushUserTurn s m) := by
  simp [handleUserMessage, h]

/-- Claim C9: in `awaiting_confirmation`, a message the confirmation
handler recognizes as neither affirmative nor negative re-prompts and
leaves the session — its state and its pendingTransfer — unchanged. -/
theorem reprompt_leaves_session_unchanged (env : OrchEnv) (s : Session) (m : List Char)
    (hstate : s.state = "awaiting_confirmation")
    (hyes : isYesMsg m = false) (hno : isNoMsg m = false) :
    handleUserMessage env s m =
      ⟨s, ⟨"Please reply YES to confirm the transaction or NO to cancel it.",
        "awaiting_confirmation"⟩, []⟩ := by
  have hb : (s.state == "awaiting_confirmation") = true := by simp [hstate]
  rw [handleUserMessage_awaiting env s m hb]
  simp [handleConfirmation, hyes, hno]

/-- Witness for C9: the message "later" matches no confirmation token
and re-prompts without touching the session. -/
theorem reprompt_leaves_session_unchanged_witness :
    (sessionAwait (some ptDemo)).state = "awaiting_confirmation"
      ∧ isYesMsg "later".toList = false
      ∧ isNoMsg "later".toList = false
      ∧ handleUserMessage envFail (sessionAwait (some ptDemo)) "later".toList =
          ⟨sessionAwait (some ptDemo),
            ⟨"Please reply YES to confirm the transaction or NO to cancel it.",
              "awaiting_confirmation"⟩, []⟩ :=
  ⟨rfl, by decide, by decide,
    reprompt_leaves_session_unchanged envFail (sessionAwait (some ptDemo)) "later".toList
      rfl (by decide) (by decide)⟩

/-- Claim C2 amended: per chat turn the dispatcher is invoked at most
once, only from `awaiting_confirmation` on an affirmative reply, and
only with the session's stored pendingTransfer; a successful dispatch
clears the pendingTransfer and returns the session to idle, while a
failed dispatch returns the session to idle with the pendingTransfer
left in place (it is not cleared) — a retry cannot double-submit
because no dispatch happens outside `awaiting_confirmation`. -/
theorem dispatcher_at_most_once (env : OrchEnv) (s : Session) (m : List Char) :
    ((handleUserMessage env s m).dispatches = []
      ∨ ∃ pt, (handleUserMessage env s m).dispatches = [pt]
          ∧ s.state = "awaiting_confirmation" ∧ isYesMsg m = true
          ∧ s.pendingTransaction = some pt)
  ∧ (∀ pt tx, s.state = "awaiting_confirmation" → isYesMsg m = true →
      s.pendingTransaction = some pt → env.execOutcome = .success tx →
      (handleUserMessage env s m).session.state = "idle"
        ∧ (handleUserMessage env s m).session.pendingTransaction = none
        ∧ (handleUserMessage env s m).dispatches = [pt])
  ∧ (∀ pt e, s.state = "awaiting_confirmation" → isYesMsg m = true →
      s.pendingTransaction = some pt → env.execOutcome = .failure e →
      (handleUserMessage env s m).session.state = "idle"
        ∧ (handleUserMessage env s m).session.pendingTransaction = some pt
        ∧ (handleUserMessage env s m).dispatches = [pt]) := by
  by_cases hst : s.state = "awaiting_confirmation"
  · have hb : (s.state == "awaiting_confirmation") = true := by simp [hst]
    rw [handleUserMessage_awaiting env s m hb]
    unfold handleConfirmation
    by_cases hyes : isYesMsg m = true
    · rw [if_pos hyes]
      cases hpt : s.pendingTransaction with
      | none =>
          refine ⟨Or.inl ?_, ?_, ?_⟩
          · simp [executeTransfer, hpt]
          · intro pt tx _ _ hpt'
            exact absurd hpt' (by simp)
          · intro pt e _ _ hpt'
            exact absurd hpt' (by simp)
      | some pt =>
          cases ho : env.execOutcome with
          | success tx =>
              refine ⟨Or.inr ⟨pt, ?_, hst, hyes, rfl⟩, ?_, ?_⟩
              · simp [executeTransfer, hpt, ho]
              · intro pt' tx' _ _ hpt' _
                cases hpt'
                simp [executeTransfer, hpt, ho]
              · intro pt' e' _ _ _ ho'
                simp at ho'
          | failure e =>
              refine ⟨Or.inr ⟨pt, ?_, hst, hyes, rfl⟩, ?_, ?_⟩
              · simp [executeTransfer, hpt, ho]
              · intro pt' tx' _ _ _ ho'
                simp at ho'
              · intro pt' e' _ _ hpt' _
                cases hpt'
                simp [executeTransfer, hpt, ho]
    · have hyes' : isYesMsg m = false := by
        cases h : isYesMsg m
        · rfl
        · exact absurd h hyes
      rw [if_neg (by simp [hyes'])]
      refine ⟨Or.inl ?_, ?_, ?_⟩
      · split <;> rfl
      · intro pt tx _ hy
        exact absurd hy hyes
      · intro pt e _ hy
        exact absurd hy hyes
  · have hb : (s.state == "awaiting_confirmation") = false := by
      simp [hst]
    rw [handleUserMessage_not_awaiting env s m hb]
    exact ⟨Or.inl (routeIntent_dispatches env _),
      fun pt tx h1 => absurd h1 hst,
      fun pt e h1 => absurd h1 hst⟩

/-- Claim C2 counterexample: when the dispatch fails, the session
returns to idle with the pendingTransfer still set — it is not cleared
before idle is re-entered. -/
theorem pendingTransfer_kept_on_failed_dispatch :
    (handleUserMessage envFail (sessionAwait (some ptDemo)) "yes".toList).session.state = "idle"
      ∧ (handleUserMessage envFail (sessionAwait (some ptDemo))
          "yes".toList).session.pendingTransaction = some ptDemo := by
  rw [handleUserMessage_awaiting envFail (sessionAwait (some ptDemo)) "yes".toList (by decide)]
  simp +decide [handleConfirmation, executeTransfer, sessionAwait, envFail]

/-- Witness for the amended C2 on a successful dispatch. -/
theorem dispatcher_at_most_once_witness :
    (sessionAwait (some ptDemo)).state = "awaiting_confirmation"
      ∧ isYesMsg "yes".toList = true
      ∧ (sessionAwait (some ptDemo)).pendingTransaction = some ptDemo
      ∧ envSucc.execOutcome = .success "0xtxhash"
      ∧ (handleUserMessage envSucc (sessionAwait (some ptDemo)) "yes".toList).session.state = "idle"
      ∧ (handleUserMessage envSucc (sessionAwait (some ptDemo))
          "yes".toList).session.pendingTransaction = none
      ∧ (handleUserMessage envSucc (sessionAwait (some ptDemo)) "yes".toList).dispatches
          = [ptDemo] := by
  have h := (dispatcher_at_most_once envSucc (sessionAwait (some ptDemo)) "yes".toList).2.1
    ptDemo "0xtxhash" rfl (by decide) rfl rfl
  exact ⟨rfl, by decide, rfl, rfl, h.1, h.2.1, h.2.2⟩

/-! ## `processTransfer` branch lemmas -/

theorem processTransfer_hardstop (env : OrchEnv) (s : Session) (t : TransferIntent) (q : Quote)
    (h1 : ((transferChainInfo s t).chain == "unknown") = false)
    (h2 : (transferChainInfo s t).unsupported = false)
    (hbest : (getBestBridgeRoute (transferRouteParams t (transferChainInfo s t).chain)
        env.providerResults).best = some q)
    (hvalid : (validateTransfer { t with toChain := (transferChainInfo s t).chain }
        (some q)).valid = true)
    (hfee : 1 / 4 < q.feeUSD / t.amount) :
    processTransfer env s t =
      ⟨s, ⟨"I found a route via " ++ q.bridge
        ++ ", but the fee is too high a share of your transfer. This is too high to proceed automatically. Would you like to adjust the amount and try again?",
        "idle"⟩, []⟩ := by
  have hfee' : (4 : ℚ)⁻¹ < q.feeUSD / t.amount := by rwa [one_div] at hfee
  simp [processTransfer, h1, h2, hbest, hvalid, hfee']

theorem processTransfer_prepares (env : OrchEnv) (s : Session) (t : TransferIntent) (q : Quote)
    (h1 : ((transferChainInfo s t).chain == "unknown") = false)
    (h2 : (transferChainInfo s t).unsupported = false)
    (hbest : (getBestBridgeRoute (transferRouteParams t (transferChainInfo s t).chain)
        env.providerResults).best = some q)
    (hvalid : (validateTransfer { t with toChain := (transferChainInfo s t).chain }
        (some q)).valid = true)
    (hfee : ¬(1 / 4 < q.feeUSD / t.amount)) :
    (processTransfer env s t).session.state = "awaiting_confirmation"
      ∧ (processTransfer env s t).session.pendingTransaction.map PendingTx.bridgeQuote = some q
      ∧ (processTransfer env s t).response.state = "awaiting_confirmation"
      ∧ (processTransfer env s t).dispatches = [] := by
  have hfee' : ¬((4 : ℚ)⁻¹ < q.feeUSD / t.amount) := by rwa [one_div] at hfee
  simp [processTransfer, h1, h2, hbest, hvalid, hfee']

/-- Claim C3: when chain detection succeeds, a best route exists and
validation passes but the fee exceeds 25% of the amount, the turn ends
with the session state unchanged (idle), the pendingTransfer slot
untouched, an idle reply, and no dispatch — the session never enters
awaiting_confirmation. -/
theorem hardstop_blocks_confirmation (env : OrchEnv) (s : Session) (m : List Char)
    (t : TransferIntent) (q : Quote)
    (hstate : s.state = "idle")
    (hint : env.intent = .transfer t)
    (h1 : ((transferChainInfo (pushUserTurn s m) t).chain == "unknown") = false)
    (h2 : (transferChainInfo (pushUserTurn s m) t).unsupported = false)
    (hbest : (getBestBridgeRoute
        (transferRouteParams t (transferChainInfo (pushUserTurn s m) t).chain)
        env.providerResults).best = some q)
    (hvalid : (validateTransfer
        { t with toChain := (transferChainInfo (pushUserTurn s m) t).chain }
        (some q)).valid = true)
    (hfee : 1 / 4 < q.feeUSD / t.amount) :
    (handleUserMessage env s m).session.state = "idle"
      ∧ (handleUserMessage env s m).session.pendingTransaction = s.pendingTransaction
      ∧ (handleUserMessage env s m).response.state = "idle"
      ∧ (handleUserMessage env s m).dispatches = [] := by
  have hb : (s.state == "awaiting_confirmation") = false := by simp [hstate]
  rw [handleUserMessage_not_awaiting env s m hb]
  have hroute : routeIntent env (pushUserTurn s m) = processTransfer env (pushUserTurn s m) t := by
    simp [routeIntent, hint]
  rw [hroute, processTransfer_hardstop env (pushUserTurn s m) t q h1 h2 hbest hvalid hfee]
  exact ⟨hstate, rfl, rfl, rfl⟩

/-- Witness for C3 at Scenario A: amount 100, best-route fee 60. -/
theorem hardstop_blocks_confirmation_witness :
    sIdle.state = "idle"
      ∧ envScenA.intent = .transfer tScenA
      ∧ wormQ60.feeUSD = 60 ∧ tScenA.amount = 100
      ∧ 1 / 4 < wormQ60.feeUSD / tScenA.amount
      ∧ (handleUserMessage envScenA sIdle msgBase).session.state = "idle"
      ∧ (handleUserMessage envScenA sIdle msgBase).session.pendingTransaction
          = sIdle.pendingTransaction
      ∧ (handleUserMessage envScenA sIdle msgBase).response.state = "idle"
      ∧ (handleUserMessage envScenA sIdle msgBase).dispatches = [] := by
  have hchain : (transferChainInfo (pushUserTurn sIdle msgBase) tScenA).chain = "base" := by
    decide
  have h1 : ((transferChainInfo (pushUserTurn sIdle msgBase) tScenA).chain == "unknown")
      = false := by decide
  have h2 : (transferChainInfo (pushUserTurn sIdle msgBase) tScenA).unsupported = false := by
    decide
  have hbest : (getBestBridgeRoute
      (transferRouteParams tScenA (transferChainInfo (pushUserTurn sIdle msgBase) tScenA).chain)
      envScenA.providerResults).best = some wormQ60 := by
    rw [hchain]
    exact getBestBridgeRoute_single _ wormQ60
  have hvalid : (validateTransfer
      { tScenA with toChain := (transferChainInfo (pushUserTurn sIdle msgBase) tScenA).chain }
      (some wormQ60)).valid = true := by
    rw [hchain]
    have hdet : detectChainFromAddress addrEVM msgBase
        = ⟨"base", "high", "Base chain detected from context", false⟩ := by decide
    have haddr : validateAddressForChain addrEVM "base" = ⟨true, ""⟩ := by decide
    norm_num [validateTransfer, vtErrors, vtDetected, vtChain, tScenA, hdet, haddr,
      tokenSupportDefined, tokenSupported, wormQ60]
    all_goals decide
  have hfee : 1 / 4 < wormQ60.feeUSD / tScenA.amount := by
    norm_num [wormQ60, tScenA]
  have h := hardstop_blocks_confirmation envScenA sIdle msgBase tScenA wormQ60 rfl rfl
    h1 h2 hbest hvalid hfee
  exact ⟨rfl, rfl, rfl, rfl, hfee, h.1, h.2.1, h.2.2.1, h.2.2.2⟩

/-! ## Provider adapter lemmas -/

/-- Every chain with an `acrossId` also has a `layerzeroId` (finite
check over the `CHAIN_IDS` table). -/
theorem acrossId_imp_layerzeroId (c : String) (h : acrossIdOf c ≠ none) :
    layerzeroIdOf c ≠ none := by
  unfold acrossIdOf layerzeroIdOf CHAIN_IDS at *
  split_ifs at h ⊢ <;> simp_all

/-- An Across quote is never execution-ready and requires both chains
to have `acrossId`s. -/
theorem getAcrossQuote_spec (params : RouteParams) (tokenAddr : String → String → Bool)
    (fetch : AcrossFetchResult) (q : Quote)
    (h : getAcrossQuote params tokenAddr fetch = some q) :
    q.executionReady = false ∧ acrossIdOf params.fromChain ≠ none
      ∧ acrossIdOf params.toChain ≠ none := by
  unfold getAcrossQuote at h
  split_ifs at h with h1 h2
  cases fetch with
  | fail => cases h
  | ok d =>
      cases h
      simp only [Bool.or_eq_true, Option.isNone_iff_eq_none] at h1
      push_neg at h1
      exact ⟨rfl, h1.1, h1.2⟩

/-- Every Wormhole quote is execution-ready. -/
theorem getWormholeQuote_ready (params : RouteParams) (fetch : WormholeFetchResult)
    (q : Quote) (h : getWormholeQuote params fetch = some q) : q.executionReady = true := by
  unfold getWormholeQuote at h
  split_ifs at h
  cases fetch with
  | throw => cases h
  | notOk => cases h; rfl
  | ok feeUsd liquidity => cases h; rfl

/-- Every Axelar quote is execution-ready. -/
theorem getAxelarQuote_ready (params : RouteParams) (fetch : AxelarFetchResult)
    (q : Quote) (h : getAxelarQuote params fetch = some q) : q.executionReady = true := by
  unfold getAxelarQuote at h
  split_ifs at h
  cases fetch with
  | fail => cases h
  | ok feeTotal => cases h; rfl

/-- Every Celer quote is execution-ready. -/
theorem getCelerQuote_ready (params : RouteParams) (tokenAddr : String → String → Bool)
    (fetch : CelerFetchResult) (q : Quote)
    (h : getCelerQuote params tokenAddr fetch = some q) : q.executionReady = true := by
  unfold getCelerQuote at h
  split_ifs at h
  cases fetch with
  | fail => cases h
  | err => cases h
  | ok fee liqAmt => cases h; rfl

/-- Every LayerZero quote is execution-ready. -/
theorem getLayerZeroQuote_ready (params : RouteParams) (q : Quote)
    (h : getLayerZeroQuote params = some q) : q.executionReady = true := by
  unfold getLayerZeroQuote at h
  split_ifs at h
  cases h; rfl

/-- The LayerZero adapter performs no network call: whenever both
chains have `layerzeroId`s it fulfills with an execution-ready quote. -/
theorem getLayerZeroQuote_total (params : RouteParams)
    (h1 : layerzeroIdOf params.fromChain ≠ none)
    (h2 : layerzeroIdOf params.toChain ≠ none) :
    ∃ q, getLayerZeroQuote params = some q ∧ q.executionReady = true := by
  have hc : ¬(((layerzeroIdOf params.fromChain).isNone
      || (layerzeroIdOf params.toChain).isNone) = true) := by
    simp [Option.isNone_iff_eq_none, h1, h2]
  unfold getLayerZeroQuote
  rw [if_neg hc]
  exact ⟨{ bridge := "LayerZero/Stargate"
           feeUSD := params.amount * (6 / 10000) + 45 / 100
           estimatedMinutes := 3
           successRate := 97 / 100
           liquidityUSD := 50000000
           executionMethod := "layerzero_stargate"
           executionReady := true }, rfl, rfl⟩

/-- Every settled-outcome list the five adapters can produce is
`ResultsOk`: a fulfilled non-ready quote can only come from Across,
whose chain requirements guarantee the fetch-free LayerZero adapter
also fulfilled with a ready quote. -/
theorem allSettledResults_ok (params : RouteParams) (penv : ProviderEnv) :
    ResultsOk (allSettledResults params penv) := by
  rintro ⟨q, hq, hnr⟩
  simp only [allSettledResults, List.mem_cons, List.not_mem_nil, or_false] at hq
  rcases hq with h | h | h | h | h
  · obtain ⟨-, hf, ht⟩ := getAcrossQuote_spec params penv.tokenAddr penv.acrossFetch q h.symm
    obtain ⟨q', hq', hr'⟩ := getLayerZeroQuote_total params
      (acrossId_imp_layerzeroId _ hf) (acrossId_imp_layerzeroId _ ht)
    refine ⟨q', ?_, hr'⟩
    simp [allSettledResults, hq']
  · have hr := getWormholeQuote_ready params penv.wormholeFetch q h.symm
    rw [hnr] at hr
    simp at hr
  · have hr := getAxelarQuote_ready params penv.axelarFetch q h.symm
    rw [hnr] at hr
    simp at hr
  · have hr := getCelerQuote_ready params penv.tokenAddr penv.celerFetch q h.symm
    rw [hnr] at hr
    simp at hr
  · have hr := getLayerZeroQuote_ready params q h.symm
    rw [hnr] at hr
    simp at hr

/-- Over any `ResultsOk` settled-outcome list, the best quote chosen by
the aggregator is execution-ready: either some ready quote exists and
only ready quotes are ranked, or no non-ready quote exists either and
best is `none`. -/
theorem best_ready_of_resultsOk (params : RouteParams) (results : List (Option Quote))
    (hok : ResultsOk results) (q : Quote)
    (hbest : (getBestBridgeRoute params results).best = some q) :
    q.executionReady = true := by
  unfold getBestBridgeRoute at hbest
  dsimp only at hbest
  set allQ := results.filterMap id with hallQ
  set validQ := allQ.filter (fun q => q.executionReady == true) with hvalidQ
  set useQ := if validQ.length > 0 then validQ else allQ with huseQ
  split at hbest
  · simp at hbest
  · have hmem : q ∈ rankQuotes useQ params.priority := by
      cases hrq : rankQuotes useQ params.priority with
      | nil => rw [hrq] at hbest; simp at hbest
      | cons x xs =>
          rw [hrq] at hbest
          simp only [List.head?_cons, Option.some.injEq] at hbest
          rw [← hbest]
          exact List.mem_cons_self x xs
    have hmem' : q ∈ useQ :=
      (List.perm_insertionSort (policyLe params.priority) useQ).mem_iff.mp hmem
    by_cases hv : validQ.length > 0
    · rw [huseQ, if_pos hv] at hmem'
      have := List.of_mem_filter hmem'
      simpa using this
    · rw [huseQ, if_neg hv] at hmem'
      cases hready : q.executionReady with
      | true => rfl
      | false =>
          have hsome : some q ∈ results := by
            rw [hallQ] at hmem'
            obtain ⟨r, hr, hid⟩ := List.mem_filterMap.mp hmem'
            simp only [id_eq] at hid
            subst hid
            exact hr
          obtain ⟨q', hq', hr'⟩ := hok ⟨q, hsome, hready⟩
          have hq'mem : q' ∈ validQ := by
            rw [hvalidQ]
            refine List.mem_filter.mpr ⟨?_, by simp [hr']⟩
            rw [hallQ]
            exact List.mem_filterMap.mpr ⟨some q', hq', rfl⟩
          exact absurd (List.length_pos_of_mem hq'mem) hv

/-! ## Ready-quote preservation through the state machine -/

theorem handleQuery_session (env : OrchEnv) (s : Session) (q : QueryIntent) :
    (handleQuery env s q).session = s := by
  unfold handleQuery
  dsimp only
  repeat' split
  all_goals rfl

theorem ReadyInv_pushUserTurn {s : Session} (m : List Char) (h : ReadyInv s) :
    ReadyInv (pushUserTurn s m) :=
  fun pt hp => h pt hp

theorem processTransfer_ready (env : OrchEnv) (s : Session) (t : TransferIntent)
    (hok : ResultsOk env.providerResults) (hinv : ReadyInv s) :
    ReadyInv (processTransfer env s t).session := by
  unfold processTransfer
  dsimp only
  split
  · exact hinv
  · split
    · exact hinv
    · split
      · exact hinv
      next bq heq =>
        split
        · exact hinv
        · split
          · exact hinv
          · intro pt hpt
            simp only [Option.some.injEq] at hpt
            rw [← hpt]
            exact best_ready_of_resultsOk _ env.providerResults hok bq heq

theorem step_ready (env : OrchEnv) (s : Session) (m : List Char)
    (hok : ResultsOk env.providerResults) (hinv : ReadyInv s) :
    ReadyInv (handleUserMessage env s m).session
      ∧ ∀ pt ∈ (handleUserMessage env s m).dispatches, pt.bridgeQuote.executionReady = true := by
  unfold handleUserMessage
  split
  · unfold handleConfirmation
    split
    · unfold executeTransfer
      split
      next heq =>
        refine ⟨?_, ?_⟩
        · intro pt hpt
          have hpt' : s.pendingTransaction = some pt := hpt
          have heq' : s.pendingTransaction = none := heq
          rw [heq'] at hpt'
          cases hpt'
        · intro pt hpt
          simp at hpt
      next pt0 heq =>
        have hpt0 : s.pendingTransaction = some pt0 := heq
        split
        · refine ⟨?_, ?_⟩
          · intro pt hpt
            simp at hpt
          · intro pt hpt
            simp only [List.mem_singleton] at hpt
            subst hpt
            exact hinv pt hpt0
        · refine ⟨?_, ?_⟩
          · intro pt hpt
            exact hinv pt hpt
          · intro pt hpt
            simp only [List.mem_singleton] at hpt
            subst hpt
            exact hinv pt hpt0
    · split
      · refine ⟨?_, ?_⟩
        · intro pt hpt
          simp at hpt
        · intro pt hpt
          simp at hpt
      · exact ⟨hinv, by intro pt hpt; simp at hpt⟩
  · refine ⟨?_, ?_⟩
    · unfold routeIntent
      cases env.intent with
      | transfer t =>
          show ReadyInv (processTransfer env (pushUserTurn s m) t).session
          exact processTransfer_ready env (pushUserTurn s m) t hok (ReadyInv_pushUserTurn m hinv)
      | swapAndTransfer st =>
          show ReadyInv (processSwapAndTransfer env (pushUserTurn s m) st).session
          unfold processSwapAndTransfer
          cases env.swapRoute with
          | none => exact ReadyInv_pushUserTurn m hinv
          | some sr =>
              exact processTransfer_ready env (pushUserTurn s m) _ hok
                (ReadyInv_pushUserTurn m hinv)
      | alert a =>
          show ReadyInv (registerAlert env (pushUserTurn s m) a).session
          intro pt h
          exact hinv pt h
      | query qq =>
          show ReadyInv (handleQuery env (pushUserTurn s m) qq).session
          intro pt h
          rw [handleQuery_session env (pushUserTurn s m) qq] at h
          exact hinv pt h
      | clarificationNeeded c =>
          intro pt h
          exact hinv pt h
      | other =>
          intro pt h
          exact hinv pt h
    · intro pt hpt
      rw [routeIntent_dispatches env (pushUserTurn s m)] at hpt
      simp at hpt

theorem runTurns_ready (s : Session) (turns : List (OrchEnv × List Char))
    (hok : ∀ p ∈ turns, ResultsOk (p : OrchEnv × List Char).1.providerResults)
    (hinv : ReadyInv s) :
    ∀ pt ∈ (runTurns s turns).2, pt.bridgeQuote.executionReady = true := by
  induction turns generalizing s with
  | nil => intro pt hpt; simp [runTurns] at hpt
  | cons p rest ih =>
      obtain ⟨env, m⟩ := p
      intro pt hpt
      have hstep := step_ready env s m (hok ⟨env, m⟩ (List.mem_cons_self _ _)) hinv
      simp only [runTurns] at hpt
      rcases List.mem_append.mp hpt with h | h
      · exact hstep.2 pt h
      · exact ih _ (fun p hp => hok p (List.mem_cons_of_mem _ hp)) hstep.1 pt h

/-- Claim C1: a quote with `executionReady = false` is never submitted
to the execution path. (i) Every settled provider-outcome list the five
adapters can produce is `ResultsOk`: the only adapter that ever emits a
non-ready quote is Across, which requires both chains to carry
`acrossId`s; every such chain also carries a `layerzeroId`, and the
fetch-free LayerZero adapter then always fulfills with a ready quote.
(ii) Over any `ResultsOk` outcome list, the quote `getBestBridgeRoute`
chooses as best is execution-ready — the non-ready fallback can never
reach `best`. (iii) Hence along every multi-turn run whose per-turn
provider outcomes are adapter-realizable, every pending transfer
submitted to the execution dispatcher by `executeTransfer` carries an
`executionReady = true` quote. -/
theorem executionReady_false_never_dispatched :
    (∀ params penv, ResultsOk (allSettledResults params penv))
  ∧ (∀ params results, ResultsOk results →
      ∀ q, (getBestBridgeRoute params results).best = some q → q.executionReady = true)
  ∧ (∀ (s : Session) (turns : List (OrchEnv × List Char)),
      (∀ p ∈ turns, ResultsOk (p : OrchEnv × List Char).1.providerResults) →
      ReadyInv s →
      ∀ pt ∈ (runTurns s turns).2, pt.bridgeQuote.executionReady = true) :=
  ⟨allSettledResults_ok,
   fun params results hok q h => best_ready_of_resultsOk params results hok q h,
   fun s turns hok hinv => runTurns_ready s turns hok hinv⟩

/-- Witness for C1: concrete `ResultsOk` lists and a concrete two-turn
run (a transfer request followed by a confirmation), with every
hypothesis discharged. -/
theorem executionReady_false_never_dispatched_witness :
    ResultsOk [some wormQ60]
      ∧ ResultsOk envSucc.providerResults
      ∧ ReadyInv sIdle
      ∧ (∀ q, (getBestBridgeRoute ⟨"celo", "base", "USDC", 100, "cheapest"⟩
          [some wormQ60]).best = some q → q.executionReady = true)
      ∧ (∀ pt ∈ (runTurns sIdle [(envScenA, msgBase), (envSucc, "yes".toList)]).2,
          pt.bridgeQuote.executionReady = true) := by
  have hok : ResultsOk [some wormQ60] := fun _ => ⟨wormQ60, by simp, rfl⟩
  have hokE : ResultsOk envSucc.providerResults := by
    rintro ⟨q, hq, -⟩
    simp [envSucc] at hq
  have hinv : ReadyInv sIdle := by
    intro pt h
    simp [sIdle, createSession] at h
  refine ⟨hok, hokE, hinv, ?_, ?_⟩
  · intro q hq
    exact executionReady_false_never_dispatched.2.1 _ _ hok q hq
  · refine executionReady_false_never_dispatched.2.2 sIdle _ ?_ hinv
    intro p hp
    rcases List.mem_cons.mp hp with rfl | hp'
    · exact hok
    · rcases List.mem_cons.mp hp' with rfl | hp''
      · exact hokE
      · simp at hp''

/-! ## Alert engine lemmas -/

namespace AlertEngine

theorem stepAlert_alertId (env : AlertEnv) (a : EngineAlert) :
    (stepAlert env a).alertId = a.alertId := by
  unfold stepAlert
  split_ifs <;> rfl

theorem checkPriceAlert_of_triggered (env : AlertEnv) (a : EngineAlert)
    (h : a.triggered = true) : checkPriceAlert env a = false := by
  simp [checkPriceAlert, h]

theorem stepAlert_of_triggered (env : AlertEnv) (a : EngineAlert)
    (h : a.triggered = true) : stepAlert env a = a := by
  simp [stepAlert, h]

theorem stepAlert_fires (env : AlertEnv) (a : EngineAlert)
    (hnt : a.triggered = false) (hc : checkPriceAlert env a = true) :
    stepAlert env a = { a with triggered := true } := by
  simp [stepAlert, hnt, hc]

theorem eventOf_alertId (env : AlertEnv) (a : EngineAlert) (e : TriggerEvent)
    (h : eventOf env a = some e) : e.alertId = a.alertId := by
  unfold eventOf at h
  split_ifs at h <;> cases h <;> rfl

theorem eventOf_of_triggered (env : AlertEnv) (a : EngineAlert)
    (h : a.triggered = true) : eventOf env a = none := by
  simp [eventOf, h]

theorem eventOf_fires (env : AlertEnv) (a : EngineAlert)
    (hnt : a.triggered = false) (hc : checkPriceAlert env a = true) :
    eventOf env a = some ⟨a.alertId, a.sessionId⟩ := by
  simp [eventOf, hnt, hc]

/-- No events carry an id that does not belong to the registry. -/
theorem tickEvents_count_zero_of_not_mem (env : AlertEnv) (key : String)
    (registry : List EngineAlert) (h : key ∉ registry.map EngineAlert.alertId) :
    ((tickEvents env registry).filter (fun e => e.alertId == key)).length = 0 := by
  induction registry with
  | nil => rfl
  | cons x xs ih =>
      simp only [List.map_cons, List.mem_cons, not_or] at h
      obtain ⟨h1, h2⟩ := h
      simp only [tickEvents, List.filterMap_cons]
      cases hx : eventOf env x with
      | none => exact ih h2
      | some e =>
          have he : (e.alertId == key) = false := by
            rw [eventOf_alertId env x e hx]
            have hne : x.alertId ≠ key := fun hk => h1 hk.symm
            simp [hne]
          simp only [List.filter_cons, he, Bool.false_eq_true, if_false]
          exact ih h2

/-- An alert whose id is unique in the registry and whose condition
fires produces exactly one event in the tick. -/
theorem tickEvents_count_one (env : AlertEnv) (a : EngineAlert)
    (registry : List EngineAlert) (hmem : a ∈ registry)
    (hnodup : (registry.map EngineAlert.alertId).Nodup)
    (hnt : a.triggered = false) (hc : checkPriceAlert env a = true) :
    ((tickEvents env registry).filter (fun e => e.alertId == a.alertId)).length = 1 := by
  induction registry with
  | nil => cases hmem
  | cons x xs ih =>
      rw [List.map_cons, List.nodup_cons] at hnodup
      obtain ⟨hx_not, hnd⟩ := hnodup
      rcases List.mem_cons.mp hmem with rfl | hmem'
      · have h0 := tickEvents_count_zero_of_not_mem env a.alertId xs hx_not
        simp only [tickEvents] at h0
        simp only [tickEvents, List.filterMap_cons, eventOf_fires env a hnt hc]
        simp [List.filter_cons, h0]
      · have hxa : (x.alertId == a.alertId) = false := by
          have hne : x.alertId ≠ a.alertId :=
            fun he => hx_not (he ▸ List.mem_map_of_mem EngineAlert.alertId hmem')
          simp [hne]
        simp only [tickEvents, List.filterMap_cons]
        cases hx : eventOf env x with
        | none => exact ih hmem' hnd
        | some e =>
            have he : (e.alertId == a.alertId) = false := by
              rw [eventOf_alertId env x e hx]
              exact hxa
            simp only [List.filter_cons, he, Bool.false_eq_true, if_false]
            exact ih hmem' hnd

/-- If every registry alert carrying a given id is already triggered,
the tick emits no event with that id. -/
theorem tickEvents_count_zero_of_triggered (env : AlertEnv) (key : String)
    (registry : List EngineAlert)
    (h : ∀ b ∈ registry, b.alertId = key → b.triggered = true) :
    ((tickEvents env registry).filter (fun e => e.alertId == key)).length = 0 := by
  induction registry with
  | nil => rfl
  | cons x xs ih =>
      simp only [tickEvents, List.filterMap_cons]
      have ih' := ih (fun b hb => h b (List.mem_cons_of_mem x hb))
      cases hx : eventOf env x with
      | none => exact ih'
      | some e =>
          have hxk : x.alertId ≠ key := by
            intro hk
            have := h x (List.mem_cons_self x xs) hk
            rw [eventOf_of_triggered env x this] at hx
            cases hx
          have he : (e.alertId == key) = false := by
            rw [eventOf_alertId env x e hx]
            simp [hxk]
          simp only [List.filter_cons, he, Bool.false_eq_true, if_false]
          exact ih'

end AlertEngine

open AlertEngine in
/-- Claim C8: a registered, not-yet-triggered standing alert whose
condition holds is set to triggered by the next polling tick and the
trigger callback fires exactly once for it; once triggered the alert is
terminal — on any later tick it is skipped, its condition check
short-circuits to false, and no further event for it is ever emitted. -/
theorem alert_triggers_exactly_once (env : AlertEnv) (registry : List EngineAlert)
    (a : EngineAlert) (hmem : a ∈ registry)
    (hnodup : (registry.map EngineAlert.alertId).Nodup)
    (hnt : a.triggered = false) (hc : checkPriceAlert env a = true) :
    (stepAlert env a ∈ tickAlerts env registry ∧ (stepAlert env a).triggered = true)
  ∧ ((tickEvents env registry).filter (fun e => e.alertId == a.alertId)).length = 1
  ∧ (∀ env', ((tickEvents env' (tickAlerts env registry)).filter
      (fun e => e.alertId == a.alertId)).length = 0)
  ∧ (∀ env', stepAlert env' (stepAlert env a) = stepAlert env a
      ∧ checkPriceAlert env' (stepAlert env a) = false) := by
  have hfire : stepAlert env a = { a with triggered := true } := stepAlert_fires env a hnt hc
  refine ⟨⟨List.mem_map_of_mem (stepAlert env) hmem, by rw [hfire]⟩,
    tickEvents_count_one env a registry hmem hnodup hnt hc, ?_, ?_⟩
  · intro env'
    refine tickEvents_count_zero_of_triggered env' a.alertId (tickAlerts env registry) ?_
    intro b hb hbk
    obtain ⟨c, hcmem, rfl⟩ := List.mem_map.mp hb
    have hck : c.alertId = a.alertId := by
      rw [← stepAlert_alertId env c]
      exact hbk
    have hca : c = a := List.inj_on_of_nodup_map hnodup hcmem hmem hck
    rw [hca, hfire]
  · intro env'
    rw [hfire]
    exact ⟨stepAlert_of_triggered env' _ rfl, checkPriceAlert_of_triggered env' _ rfl⟩

/-- Witness for C8 at Scenario D: a `fee_below` $1 alert with the
current best fee at $0.80 fires on the next tick, exactly once. -/
theorem alert_triggers_exactly_once_witness :
    alertD ∈ [alertD]
      ∧ ([alertD].map AlertEngine.EngineAlert.alertId).Nodup
      ∧ alertD.triggered = false
      ∧ AlertEngine.checkPriceAlert alertEnvD alertD = true
      ∧ (AlertEngine.stepAlert alertEnvD alertD).triggered = true
      ∧ ((AlertEngine.tickEvents alertEnvD [alertD]).filter
          (fun e => e.alertId == alertD.alertId)).length = 1
      ∧ (∀ env', ((AlertEngine.tickEvents env'
          (AlertEngine.tickAlerts alertEnvD [alertD])).filter
            (fun e => e.alertId == alertD.alertId)).length = 0) := by
  have hmem : alertD ∈ [alertD] := List.mem_singleton.mpr rfl
  have hnodup : ([alertD].map AlertEngine.EngineAlert.alertId).Nodup := by simp
  have hc : AlertEngine.checkPriceAlert alertEnvD alertD = true := by
    simp only [AlertEngine.checkPriceAlert, alertEnvD, alertD]
    norm_num
  have h := alert_triggers_exactly_once alertEnvD [alertD] alertD hmem hnodup rfl hc
  exact ⟨hmem, hnodup, rfl, hc, h.1.2, h.2.1, h.2.2.1⟩

/-- Claim C10: an alert intent handled through the chat entry point
mutates only the session — the alert is appended to `session.alerts` —
while the alert engine's `activeAlerts` registry is untouched, so the
chat-registered alert never appears in the collection the polling loop
iterates (its id stays absent from the registry if it was absent
before). -/
theorem chat_alert_not_polled (env : OrchEnv) (g : GlobalState) (s : Session)
    (m : List Char) (a : AlertIntent)
    (hstate : (s.state == "awaiting_confirmation") = false)
    (hint : env.intent = .alert a) :
    (handleUserMessageG env g s m).1.activeAlerts = g.activeAlerts
  ∧ (handleUserMessageG env g s m).2.session.alerts
      = s.alerts ++ [⟨"alert_" ++ toString env.now, a.condition, a.threshold, a.action, env.now⟩]
  ∧ (handleUserMessageG env g s m).2.session.state = s.state
  ∧ (("alert_" ++ toString env.now) ∉ g.activeAlerts.map AlertEngine.EngineAlert.alertId →
      ("alert_" ++ toString env.now)
        ∉ (handleUserMessageG env g s m).1.activeAlerts.map AlertEngine.EngineAlert.alertId) := by
  refine ⟨rfl, ?_, ?_, fun h => h⟩
  · show (handleUserMessage env s m).session.alerts = _
    rw [handleUserMessage_not_awaiting env s m hstate]
    simp [routeIntent, hint, registerAlert, pushUserTurn]
  · show (handleUserMessage env s m).session.state = s.state
    rw [handleUserMessage_not_awaiting env s m hstate]
    simp [routeIntent, hint, registerAlert, pushUserTurn]

/-- Witness for C10: a chat-registered fee alert lands in the session
only; the engine registry (holding `alertD`) is unchanged and lacks the
new id. -/
theorem chat_alert_not_polled_witness :
    ((sIdle.state == "awaiting_confirmation") = false)
      ∧ envAlert.intent = .alert ⟨"fee_below", some 1, "notify"⟩
      ∧ (handleUserMessageG envAlert ⟨[alertD]⟩ sIdle msgBase).1.activeAlerts = [alertD]
      ∧ (handleUserMessageG envAlert ⟨[alertD]⟩ sIdle msgBase).2.session.alerts
          = [⟨"alert_42", "fee_below", some 1, "notify", 42⟩]
      ∧ ("alert_42" ∉ ([alertD].map AlertEngine.EngineAlert.alertId)) := by
  have h := chat_alert_not_polled envAlert ⟨[alertD]⟩ sIdle msgBase
    ⟨"fee_below", some 1, "notify"⟩ (by decide) rfl
  refine ⟨by decide, rfl, h.1, ?_, by decide⟩
  rw [h.2.1]
  rfl

end CrossFlow
